import Mathlib

/-!
Shallow embedding of the survey analytics, segmentation and filter engine of
`backend/survey/exports/{analytics.py, segmentation_engine.py, views.py}`.

Raw answers are dynamic JSON-like values; we embed them as the inductive
`Value`. Python numbers (int/float) are embedded as `ℚ` so that arithmetic is
exact and every statistic is computable. Python dicts are association lists
in insertion order; Python sets of session ids are duplicate-free lists.
-/

set_option maxRecDepth 4000

/- The four core rational operations are `@[irreducible]`, which blocks
kernel evaluation of concrete statistics by `decide`; restore the default
reducibility so witnesses can be checked by computation. -/
set_option allowUnsafeReducibility true
attribute [semireducible] Rat.add Rat.mul Rat.sub Rat.inv

namespace Survey

/-- A raw JSON-like answer value, as stored in the Django `JSONField`:
`None`, strings, numbers (int/float collapsed to `ℚ`), lists, dicts. -/
inductive Value where
  | null
  | str (s : String)
  | num (q : ℚ)
  | list (xs : List Value)
  | dict (kvs : List (String × Value))

/-- Python `str.strip()`: drop leading and trailing whitespace. -/
def pyStrip (s : String) : String :=
  String.mk (((s.toList.dropWhile Char.isWhitespace).reverse.dropWhile
    Char.isWhitespace).reverse)

/-- Python dict membership `k in d` for an association-list dict. -/
def dHas (kvs : List (String × Value)) (k : String) : Bool :=
  kvs.any (fun kv => kv.1 == k)

/-- Python `d.get(k)` with default `None`. -/
def dGet (kvs : List (String × Value)) (k : String) : Value :=
  match kvs.find? (fun kv => kv.1 == k) with
  | some kv => kv.2
  | none => Value.null

/-- Python truthiness of a `Value` (`bool(v)`). -/
def pyTruthy : Value → Bool
  | .null => false
  | .str s => s ≠ ""
  | .num q => q ≠ 0
  | .list xs => !xs.isEmpty
  | .dict kvs => !kvs.isEmpty

/-- Python `str(v)`. Only the string and integer cases are ever reached by
the embedded code on the answer shapes the engines handle; other shapes get
a distinguishing rendering. -/
def pyStr : Value → String
  | .null => "None"
  | .str s => s
  | .num q => if q.den = 1 then toString q.num else toString q.num ++ "/" ++ toString q.den
  | .list _ => "<list>"
  | .dict _ => "<dict>"

/-- The comment-only dict keys ignored by the blank predicate
(`{'comment', 'comments'}` in `_is_blank_value`). -/
def commentKeys : List String := ["comment", "comments"]

mutual
/-- `_is_blank_value` (analytics.py:13): None, whitespace-only strings and
empty lists are blank; numbers never are; a list is blank iff all elements
are; a dict is blank iff its non-comment entries are all blank (an empty
filtered dict is blank). The dict case walks the entries directly, skipping
comment keys, which is the filter-then-all of the source written as one
structural traversal. -/
def is_blank_value : Value → Bool
  | .null => true
  | .str s => pyStrip s == ""
  | .num _ => false
  | .list xs => blankAll xs
  | .dict kvs =>
      if (kvs.filter (fun kv => !(commentKeys.contains kv.1))).isEmpty then true
      else blankKvs kvs

/-- `all(_is_blank_value(item) for item in items)`. -/
def blankAll : List Value → Bool
  | [] => true
  | x :: xs => is_blank_value x && blankAll xs

/-- `all(_is_blank_value(item) for item in filtered_items)` where comment
keys are excluded. -/
def blankKvs : List (String × Value) → Bool
  | [] => true
  | kv :: kvs => (commentKeys.contains kv.1 || is_blank_value kv.2) && blankKvs kvs
end

/-- `_is_effectively_blank_answer` (analytics.py:43): unwrap an
`{answer, comment}` envelope first, then ask `_is_blank_value`. -/
def is_effectively_blank_answer (answer : Value) : Bool :=
  match answer with
  | .dict kvs =>
      if dHas kvs "answer" then is_blank_value (dGet kvs "answer")
      else is_blank_value (.dict kvs)
  | v => is_blank_value v

/-- Model of Python `float(s)` on plain decimal literals: optional sign,
digits, optional fractional part (`"5"`, `"-3.25"`, `".5"`, `"5."`).
Exponents / underscores / inf / nan are not produced by the surveys and are
rejected by the model. `float` itself strips surrounding whitespace. -/
def pyFloat (s : String) : Option ℚ :=
  let t := (pyStrip s).toList
  let core : List Char → Option ℚ := fun cs =>
    let intPart := cs.takeWhile Char.isDigit
    let rest := cs.dropWhile Char.isDigit
    let ok : Bool :=
      match rest with
      | [] => !intPart.isEmpty
      | '.' :: frac => (!intPart.isEmpty || !frac.isEmpty) && frac.all Char.isDigit
      | _ => false
    if ok then
      let frac := match rest with
        | '.' :: f => f
        | _ => []
      let digitsVal : List Char → ℚ := fun ds =>
        ds.foldl (fun acc c => acc * 10 + (c.toNat - 48 : ℕ)) 0
      some (digitsVal intPart + (digitsVal frac) / ((10 : ℚ) ^ frac.length))
    else none
  match t with
  | '-' :: cs => (core cs).map (fun q => -q)
  | '+' :: cs => core cs
  | cs => core cs

/-- Remove every occurrence of a character (`str.replace(c, '')`). -/
def removeChar (c : Char) (s : String) : String :=
  String.mk (s.toList.filter (fun d => d ≠ c))

/-- Python `str.isdigit()` restricted to ASCII digits (the only characters
appearing in survey numbers). -/
def pyIsDigit (s : String) : Bool :=
  !s.isEmpty && s.toList.all Char.isDigit

/-- `_parse_numeric_value` (analytics.py:413): numbers pass through
(zero included), strings are stripped then parsed by `float`; on failure the
thousands separators are removed and a digit-shape check guards a second
`float` attempt. Everything else is `None`. -/
def parse_numeric_value : Value → Option ℚ
  | .null => none
  | .num q => some q
  | .str v =>
      let cleaned := pyStrip v
      if cleaned == "" then none
      else
        match pyFloat cleaned with
        | some q => some q
        | none =>
            let cleanedNoCommas := removeChar ',' cleaned
            if cleanedNoCommas ≠ "" &&
                pyIsDigit (removeChar '-' (removeChar '.' cleanedNoCommas)) then
              pyFloat cleanedNoCommas
            else none
  | _ => none

/-- `_parse_numeric_value` of segmentation_engine.py:13 (a distinct function
from the analytics one): numbers pass through; strings try `float(strip)`
then `float(strip with commas removed)`; everything else is `None`. -/
def seg_parse_numeric_value : Value → Option ℚ
  | .null => none
  | .num q => some q
  | .str v =>
      match pyFloat (pyStrip v) with
      | some q => some q
      | none => pyFloat (removeChar ',' (pyStrip v))
  | _ => none

/-! ### Statistics primitives (Python `statistics` module and `round`) -/

/-- Insert into a sorted list (ascending). -/
def insertSorted (x : ℚ) : List ℚ → List ℚ
  | [] => [x]
  | y :: ys => if x ≤ y then x :: y :: ys else y :: insertSorted x ys

/-- Python `sorted` on numbers (stable sort; on `ℚ` equal elements are
identical, so insertion sort produces the same list). -/
def pySorted (l : List ℚ) : List ℚ := l.foldr insertSorted []

/-- Python `statistics.median`: sort, take the middle element (odd length)
or the mean of the two middle elements (even length). The empty case raises
in Python and is never reached by the embedded callers; it is mapped to 0. -/
def statMedian (data : List ℚ) : ℚ :=
  let a := pySorted data
  let n := a.length
  if n = 0 then 0
  else if n % 2 = 1 then a.getD (n / 2) 0
  else (a.getD (n / 2 - 1) 0 + a.getD (n / 2) 0) / 2

/-- Python `statistics.mean` (`sum/len`; empty case unreachable, mapped
to 0). -/
def statMean (data : List ℚ) : ℚ :=
  if data.length = 0 then 0 else data.sum / data.length

/-- Python `statistics.quantiles(data, n=4, method='inclusive')`: with
`m = len-1`, cut point `i ∈ {1,2,3}` is interpolated at position `i*m/4`:
`j, delta = divmod(i*m, 4)`, value `(a[j]*(4-delta) + a[j+1]*delta)/4`.
Requires at least two data points in Python (callers guard this). -/
def quantilesInc4 (data : List ℚ) : List ℚ :=
  let a := pySorted data
  let m := a.length - 1
  (List.range 3).map (fun i0 =>
    let i := i0 + 1
    let j := (i * m) / 4
    let delta := (i * m) % 4
    (a.getD j 0 * ((4 : ℚ) - delta) + a.getD (j + 1) 0 * delta) / 4)

/-- `_calculate_excel_quartile` (analytics.py:444): empty data gives 0.0, a
single point is every quartile, otherwise the inclusive quantiles are used
(Q2 via `statistics.median`). -/
def calculate_excel_quartile (data : List ℚ) (quartile : ℕ) : ℚ :=
  if data.isEmpty then 0
  else if data.length = 1 then data.getD 0 0
  else
    let quartiles := quantilesInc4 data
    if quartile = 1 then quartiles.getD 0 0
    else if quartile = 2 then statMedian data
    else if quartile = 3 then quartiles.getD 2 0
    else 0

/-- Round to the nearest integer, ties to even (Python `round`). -/
def roundHalfEven (q : ℚ) : ℤ :=
  let f := ⌊q⌋
  let frac := q - f
  if frac < 1 / 2 then f
  else if 1 / 2 < frac then f + 1
  else if f % 2 = 0 then f else f + 1

/-- Python `round(x, 2)` on exact rationals. -/
def pyRound2 (q : ℚ) : ℚ := (roundHalfEven (q * 100) : ℚ) / 100

/-! ### Data model: questions, sessions, analytics results -/

/-- A question descriptor (the fields of the Django `Question` model that
the analytics, segmentation and filter engines read). `none_option_text`
models a null/empty text as `""` (both are falsy in the source's
`question.none_option_text or 'None of the above'`). -/
structure Question where
  id : ℕ
  primary_type : String
  secondary_type : String
  question_text : String
  options : List Value
  has_other_option : Bool
  has_none_option : Bool
  none_option_text : String
  has_comment_box : Bool
  rows : List String
  columns : List String
  subfields : List String
  subfield_validations : List (String × Value)

/-- A session's per-question answers: the `questions` dict of a session
datum, mapping question id to raw answer. -/
abbrev Session := List (ℕ × Value)

/-- `session_data.get('questions', {}).get(question.id)` — `None` when the
question was never answered. -/
def qGet (s : Session) (qid : ℕ) : Value :=
  match List.find? (fun kv => kv.1 == qid) s with
  | some kv => kv.2
  | none => Value.null

/-- The session map: session id → session answers, in insertion order. -/
abbrev Sessions := List (String × Session)

/-- Response metadata used for comment attribution. -/
structure ResponseMeta where
  response_id : String
  submitted_at : Option String

/-- `{response_id, submitted_at, comment}` as collected for a comment box. -/
structure CommentEntry where
  response_id : String
  submitted_at : Option String
  comment : String
deriving DecidableEq

/-- One `{option, count, percentage}` row of a choice result. -/
structure OptionStat where
  option : String
  count : ℕ
  percentage : ℚ
deriving DecidableEq

/-- One `{column, count, percentage}` entry of a grid row. -/
structure ColumnStat where
  column : String
  count : ℕ
  percentage : ℚ
deriving DecidableEq

/-- Per-row grid payload: `{total_responses, columns}`. -/
structure RowResult where
  total_responses : ℕ
  columns : List ColumnStat
deriving DecidableEq

/-- The numeric statistics block (`count/min/q1/median/q3/max/average/sum`).
A subfield whose sample is empty reports `N/A` strings in the source; that
case is an absent (`Option.none`) block in the embedding. -/
structure NumStats where
  count : ℕ
  min : ℚ
  q1 : ℚ
  median : ℚ
  q3 : ℚ
  max : ℚ
  average : ℚ
  sum : ℚ
deriving DecidableEq

/-- The discriminated per-question analytics payload returned by
`calculate_analytics`. `numericEmpty` is the `'No valid numeric responses'`
payload (`count: 0`); `gridUndefined` is the `'Grid structure not defined'`
payload; `other` carries the `'Analytics not available'` message. -/
inductive AnalyticsResult where
  | choice (question_text question_type : String) (total_responses : ℕ)
      (answered_count skipped_count : ℤ) (results : List OptionStat)
      (comments : List CommentEntry)
  | gridUndefined (question_text : String) (answered_count skipped_count : ℤ)
      (comments : List CommentEntry)
  | grid (question_text question_type : String) (answered_count skipped_count : ℤ)
      (rows : List (String × RowResult)) (comments : List CommentEntry)
  | numericEmpty (question_text : String) (answered_count skipped_count : ℤ)
  | numeric (question_text : String) (count : ℕ) (answered_count skipped_count : ℤ)
      (min q1 median q3 max average sum : ℚ)
  | form_fields_numeric (question_text : String) (answered_count skipped_count : ℤ)
      (base_count : ℕ) (subfields : List (String × Option NumStats))
  | other (question_text : String) (answered_count skipped_count : ℤ)
      (comments : List CommentEntry)
deriving DecidableEq

/-- The `answered_count` field common to every result variant. -/
def AnalyticsResult.answered_count : AnalyticsResult → ℤ
  | .choice _ _ _ a _ _ _ => a
  | .gridUndefined _ a _ _ => a
  | .grid _ _ a _ _ _ => a
  | .numericEmpty _ a _ => a
  | .numeric _ _ a _ _ _ _ _ _ _ _ => a
  | .form_fields_numeric _ a _ _ _ => a
  | .other _ a _ _ => a

/-- The `skipped_count` field common to every result variant. -/
def AnalyticsResult.skipped_count : AnalyticsResult → ℤ
  | .choice _ _ _ _ s _ _ => s
  | .gridUndefined _ _ s _ => s
  | .grid _ _ _ s _ _ => s
  | .numericEmpty _ _ s => s
  | .numeric _ _ _ s _ _ _ _ _ _ _ => s
  | .form_fields_numeric _ _ s _ _ => s
  | .other _ _ s _ => s

/-- The `total_responses` of a choice result (0 on other variants). -/
def AnalyticsResult.total_responses : AnalyticsResult → ℕ
  | .choice _ _ t _ _ _ _ => t
  | _ => 0

/-- The option rows of a choice result (empty on other variants). -/
def AnalyticsResult.results : AnalyticsResult → List OptionStat
  | .choice _ _ _ _ _ rs _ => rs
  | _ => []

/-- The per-row payloads of a grid result (empty on other variants). -/
def AnalyticsResult.rows : AnalyticsResult → List (String × RowResult)
  | .grid _ _ _ _ rs _ => rs
  | _ => []

/-- The `base_count` of a form-fields-numeric result (0 on other
variants). -/
def AnalyticsResult.base_count : AnalyticsResult → ℕ
  | .form_fields_numeric _ _ _ b _ => b
  | _ => 0

/-- The per-subfield blocks of a form-fields-numeric result (empty on other
variants). -/
def AnalyticsResult.subfields : AnalyticsResult → List (String × Option NumStats)
  | .form_fields_numeric _ _ _ _ s => s
  | _ => []

/-! ### Choice analytics (`calculate_choice_analytics`, analytics.py:194) -/

/-- The keys probed by `_extract_option_label` on structured options. -/
def optionLabelKeys : List String := ["label", "name", "value", "text", "option"]

/-- `_extract_option_label` (analytics.py:203): `None` gives `''`; a dict
yields `str` of the first truthy value among the label keys (else `str` of
the dict); anything else is `str`-converted. -/
def extract_option_label : Value → String
  | .null => ""
  | .dict kvs =>
      match List.find? (fun k => pyTruthy (dGet kvs k)) optionLabelKeys with
      | some k => pyStr (dGet kvs k)
      | none => pyStr (.dict kvs)
  | v => pyStr v

/-- Python `str.lower()` (character-wise). -/
def pyLower (s : String) : String := String.mk (s.toList.map Char.toLower)

/-- Python `str.split()` with no argument: split on whitespace runs,
dropping empty words. `cur` is the current word, reversed. -/
def pyWordsAux : List Char → List Char → List String
  | [], cur => if cur.isEmpty then [] else [String.mk cur.reverse]
  | c :: cs, cur =>
      if c.isWhitespace then
        if cur.isEmpty then pyWordsAux cs []
        else String.mk cur.reverse :: pyWordsAux cs []
      else pyWordsAux cs (c :: cur)

/-- `' '.join(words)`. -/
def pyJoinSpace : List String → String
  | [] => ""
  | [w] => w
  | w :: ws => w ++ " " ++ pyJoinSpace ws

/-- `_normalize` (analytics.py:213): `' '.join(label.strip().lower().split())`. -/
def normalizeLabel (label : String) : String :=
  pyJoinSpace (pyWordsAux (pyLower (pyStrip label)).toList [])

/-- Python `str.startswith(pre)`. -/
def pyStartsWith (s pre : String) : Bool := pre.toList.isPrefixOf s.toList

/-- Lookup in the `option_lookup` dict (normalized label → display label). -/
def lookupFind (lookup : List (String × String)) (k : String) : Option String :=
  (List.find? (fun kv => kv.1 == k) lookup).map (fun kv => kv.2)

/-- `defaultdict(int)` / plain-dict counter increment. -/
def bumpCount (counts : List (String × ℕ)) (k : String) : List (String × ℕ) :=
  if counts.any (fun kv => kv.1 == k) then
    counts.map (fun kv => if kv.1 == k then (kv.1, kv.2 + 1) else kv)
  else counts ++ [(k, 1)]

/-- `counts.get(k, 0)`. -/
def countsGet (counts : List (String × ℕ)) (k : String) : ℕ :=
  match List.find? (fun kv => kv.1 == k) counts with
  | some kv => kv.2
  | none => 0

/-- One step of the `question.options` loop building `ordered_options` /
`option_lookup` (analytics.py:220). -/
def addDeclaredOption (st : List String × List (String × String)) (raw : Value) :
    List String × List (String × String) :=
  let label := extract_option_label raw
  if label ≠ "" then
    let normalized := normalizeLabel label
    if (lookupFind st.2 normalized).isSome then st
    else (st.1 ++ [label], st.2 ++ [(normalized, label)])
  else st

/-- Adding the synthetic `Other` / none-of-the-above entries
(analytics.py:229). -/
def addSpecialOption (st : List String × List (String × String)) (label : String) :
    List String × List (String × String) :=
  let normalized := normalizeLabel label
  if (lookupFind st.2 normalized).isSome then st
  else (st.1 ++ [label], st.2 ++ [(normalized, label)])

/-- The initial `(ordered_options, option_lookup)` built from the question's
declared options plus the `Other` / none options when enabled. -/
def initialOptions (q : Question) : List String × List (String × String) :=
  let st := q.options.foldl addDeclaredOption ([], [])
  let st := if q.has_other_option then addSpecialOption st ("Other") else st
  if q.has_none_option then
    addSpecialOption st
      (if q.none_option_text = "" then "None of the above" else q.none_option_text)
  else st

/-- The `selected_options` extracted from a raw answer (analytics.py:252):
lists stand as-is, an `{answer, ...}` envelope is unwrapped (list inner kept,
truthy scalar inner wrapped in a singleton), other dicts give nothing, a
truthy scalar gives a singleton. `None` answers are skipped by the loop,
which coincides with extracting zero selections. -/
def choiceSelectedOptions (answer : Value) : List Value :=
  match answer with
  | .null => []
  | .list xs => xs
  | .dict kvs =>
      if dHas kvs "answer" then
        match dGet kvs "answer" with
        | .list ys => ys
        | inner => if pyTruthy inner then [inner] else []
      else []
  | v => if pyTruthy v then [v] else []

/-- The mutable state of the choice counting loop. -/
structure ChoiceState where
  counts : List (String × ℕ)
  ordered : List String
  lookup : List (String × String)
  total : ℕ

/-- The non-`Other` branch of counting one selection (analytics.py:280). -/
def countNormal (st : ChoiceState) (selected : Value) : ChoiceState :=
  let option_label := extract_option_label selected
  let normalized := normalizeLabel option_label
  match lookupFind st.lookup normalized with
  | some canonical =>
      if canonical ≠ "" then { st with counts := bumpCount st.counts canonical } else st
  | none =>
      if option_label ≠ "" then
        { st with counts := bumpCount st.counts option_label,
                  ordered := st.ordered ++ [option_label],
                  lookup := st.lookup ++ [(normalized, option_label)] }
      else st

/-- Counting one selection: `Other:`-prefixed strings and dicts with an
`other` key vote for `Other` (analytics.py:273). -/
def countOneSelected (st : ChoiceState) (selected : Value) : ChoiceState :=
  match selected with
  | .str s =>
      if pyStartsWith s ("Other:") then
        { st with counts := bumpCount st.counts ("Other") }
      else countNormal st (.str s)
  | .dict kvs =>
      if dHas kvs "other" then { st with counts := bumpCount st.counts ("Other") }
      else countNormal st (.dict kvs)
  | v => countNormal st v

/-- One session of the choice counting loop: sessions with zero extracted
selections are skipped entirely (excluded from the denominator). -/
def choiceSessionStep (q : Question) (st : ChoiceState) (sess : String × Session) :
    ChoiceState :=
  let selected := choiceSelectedOptions (qGet sess.2 q.id)
  if selected.isEmpty then st
  else
    let st := { st with total := st.total + 1 }
    selected.foldl countOneSelected st

/-- `calculate_choice_analytics` (analytics.py:194). -/
def calculate_choice_analytics (q : Question) (sessions : Sessions)
    (answered_count skipped_count : ℤ) (comments : List CommentEntry) : AnalyticsResult :=
  let init := initialOptions q
  let st := sessions.foldl (choiceSessionStep q)
    { counts := [], ordered := init.1, lookup := init.2, total := 0 }
  let results := st.ordered.map (fun opt =>
    let count := countsGet st.counts opt
    let percentage : ℚ := if st.total > 0 then (count : ℚ) / st.total * 100 else 0
    { option := opt, count := count, percentage := pyRound2 percentage })
  .choice q.question_text q.secondary_type st.total answered_count skipped_count
    results comments

/-! ### Grid analytics (`calculate_grid_analytics`, analytics.py:318) -/

/-- `answer.get(row)` for a dict answer, `None` for any other shape. -/
def rowAnswerOf (answer : Value) (row : String) : Value :=
  match answer with
  | .dict kvs => dGet kvs row
  | _ => Value.null

/-- Selected columns for one row (analytics.py:363): multi-select expects a
list (anything else gives nothing); single-select wraps a truthy value. -/
def gridSelectedColumns (is_multi : Bool) (row_answer : Value) : List Value :=
  if is_multi then
    match row_answer with
    | .list xs => xs
    | _ => []
  else if pyTruthy row_answer then [row_answer] else []

/-- State of the per-row counting loop: per-column counts and
`total_row_responses`. -/
structure GridRowState where
  row_responses : List (String × ℕ)
  total : ℕ

/-- One session of the per-row loop: count every selection whose stringified
column is a configured column; the session joins the row denominator only if
at least one selection was valid (analytics.py:374). -/
def gridRowSessionStep (q : Question) (row : String) (is_multi : Bool)
    (st : GridRowState) (sess : String × Session) : GridRowState :=
  let answer := qGet sess.2 q.id
  match answer with
  | .null => st
  | _ =>
    let selected := gridSelectedColumns is_multi (rowAnswerOf answer row)
    let res := selected.foldl (fun (acc : List (String × ℕ) × ℕ) col =>
      if q.columns.contains (pyStr col) then (bumpCount acc.1 (pyStr col), acc.2 + 1)
      else acc) (st.row_responses, 0)
    { row_responses := res.1,
      total := if res.2 > 0 then st.total + 1 else st.total }

/-- The full per-row result (counts, then per-column percentages against the
row's own denominator). -/
def gridRowResult (q : Question) (sessions : Sessions) (row : String) : RowResult :=
  let is_multi := q.secondary_type == "grid_multi"
  let st := sessions.foldl (gridRowSessionStep q row is_multi) ⟨[], 0⟩
  let column_stats := q.columns.map (fun col =>
    let count := countsGet st.row_responses col
    let percentage : ℚ := if st.total > 0 then (count : ℚ) / st.total * 100 else 0
    { column := col, count := count, percentage := pyRound2 percentage })
  { total_responses := st.total, columns := column_stats }

/-- `calculate_grid_analytics` (analytics.py:318): missing rows or columns
degrade to the `'Grid structure not defined'` payload. -/
def calculate_grid_analytics (q : Question) (sessions : Sessions)
    (answered_count skipped_count : ℤ) (comments : List CommentEntry) : AnalyticsResult :=
  if q.rows.isEmpty || q.columns.isEmpty then
    .gridUndefined q.question_text answered_count skipped_count comments
  else
    .grid q.question_text q.secondary_type answered_count skipped_count
      (q.rows.map (fun row => (row, gridRowResult q sessions row))) comments

/-! ### Numeric analytics (`calculate_numeric_analytics`, analytics.py:482) -/

/-- `min` of a nonempty list (Python `min(list)`; empty unreachable). -/
def listMin : List ℚ → ℚ
  | [] => 0
  | x :: xs => xs.foldl min x

/-- `max` of a nonempty list (Python `max(list)`; empty unreachable). -/
def listMax : List ℚ → ℚ
  | [] => 0
  | x :: xs => xs.foldl max x

/-- The `values_found` extracted from one non-blank answer
(analytics.py:501-545). Every branch appends a parsed value only when it is
non-`None` **and** different from 0 (the source's `parsed != 0` guards). -/
def numericValuesOfAnswer (answer : Value) : List ℚ :=
  match answer with
  | .dict kvs =>
      if dHas kvs "answer" && dHas kvs "comment" then
        let inner := dGet kvs "answer"
        if is_blank_value inner then []
        else
          match inner with
          | .dict ikvs =>
              ikvs.foldl (fun acc kv =>
                if is_blank_value kv.2 then acc
                else match parse_numeric_value kv.2 with
                  | some p => if p ≠ 0 then acc ++ [p] else acc
                  | none => acc) []
          | _ =>
              match parse_numeric_value inner with
              | some p => if p ≠ 0 then [p] else []
              | none => []
      else
        kvs.foldl (fun acc kv =>
          if commentKeys.contains kv.1 then acc
          else if is_blank_value kv.2 then acc
          else match parse_numeric_value kv.2 with
            | some p => if p ≠ 0 then acc ++ [p] else acc
            | none => acc) []
  | _ =>
      match parse_numeric_value answer with
      | some p => if p ≠ 0 then [p] else []
      | none => []

/-- The `numeric_values` collection loop of `calculate_numeric_analytics`:
effectively-blank answers are skipped entirely, the rest contribute their
`values_found`. -/
def collectNumericValues (q : Question) (sessions : Sessions) : List ℚ :=
  sessions.foldl (fun acc sess =>
    let answer := qGet sess.2 q.id
    if is_effectively_blank_answer answer then acc
    else acc ++ numericValuesOfAnswer answer) []

/-- `calculate_numeric_analytics` (analytics.py:482). An empty collection
yields the `'No valid numeric responses'` payload; a single value is every
quartile; otherwise the Excel-inclusive quartiles are used. `q1`, `median`,
`q3`, `average` and `sum` are rounded to two decimals, `min`/`max` are
reported raw. -/
def calculate_numeric_analytics (q : Question) (sessions : Sessions)
    (answered_count skipped_count : ℤ) : AnalyticsResult :=
  let numeric_values := collectNumericValues q sessions
  if numeric_values.isEmpty then
    .numericEmpty q.question_text answered_count skipped_count
  else
    let sortedVals := pySorted numeric_values
    let count := numeric_values.length
    let quartiles :=
      if count ≥ 2 then
        (calculate_excel_quartile sortedVals 1, statMedian numeric_values,
         calculate_excel_quartile sortedVals 3)
      else
        (numeric_values.getD 0 0, numeric_values.getD 0 0, numeric_values.getD 0 0)
    .numeric q.question_text count answered_count skipped_count
      (listMin numeric_values) (pyRound2 quartiles.1) (pyRound2 quartiles.2.1)
      (pyRound2 quartiles.2.2) (listMax numeric_values)
      (pyRound2 (statMean numeric_values)) (pyRound2 numeric_values.sum)

/-! ### Multi-field numeric analytics
(`calculate_form_fields_numeric_analytics`, analytics.py:597) -/

/-- The `parsed_map` built for one respondent (analytics.py:622): for each
declared numeric subfield, skip blank raw values, keep any parse success
(zero included); `has_any_value` is exactly nonemptiness of this map. -/
def parseRespondent (numeric_subfields : List String) (answer : List (String × Value)) :
    List (String × ℚ) :=
  numeric_subfields.foldl (fun acc sf =>
    let raw_val := dGet answer sf
    if is_blank_value raw_val then acc
    else match parse_numeric_value raw_val with
      | some p => acc ++ [(sf, p)]
      | none => acc) []

/-- The envelope unwrap step shared by the form-fields loops:
`if isinstance(answer, dict) and 'answer' in answer: answer = answer.get('answer')`. -/
def ffUnwrap (answer : Value) : Value :=
  match answer with
  | .dict kvs => if dHas kvs "answer" then dGet kvs "answer" else .dict kvs
  | v => v

/-- One session of the `respondent_values` loop (analytics.py:609-643):
skip `None` answers, unwrap the envelope, keep dict answers whose parsed
map is nonempty (`has_any_value`). -/
def ffSessionStep (q : Question) (numeric_subfields : List String)
    (acc : List (List (String × ℚ))) (sess : String × Session) :
    List (List (String × ℚ)) :=
  let answer := qGet sess.2 q.id
  match answer with
  | .null => acc
  | _ =>
    match ffUnwrap answer with
    | .dict kvs =>
        let parsed_map := parseRespondent numeric_subfields kvs
        if parsed_map.isEmpty then acc else acc ++ [parsed_map]
    | _ => acc

/-- The `respondent_values` list (analytics.py:607-643): unwrap
`{answer, ...}` envelopes, keep only dict answers, and keep only respondents
with at least one parsed numeric subfield. -/
def formFieldsRespondentValues (q : Question) (sessions : Sessions)
    (numeric_subfields : List String) : List (List (String × ℚ)) :=
  sessions.foldl (ffSessionStep q numeric_subfields) []

/-- Whether one session joins the form-fields `base_count`: non-`None`
answer whose unwrapped value is a dict with at least one parsed numeric
subfield (`has_any_value` in the source). -/
def ffContributes (q : Question) (numeric_subfields : List String)
    (sess : String × Session) : Bool :=
  match qGet sess.2 q.id with
  | .null => false
  | ans =>
      match ffUnwrap ans with
      | .dict kvs => !(parseRespondent numeric_subfields kvs).isEmpty
      | _ => false

/-- The `subfield_values[sf]` sample: each respondent's value for `sf` when
present (analytics.py:653-657). -/
def subfieldSample (respondent_values : List (List (String × ℚ))) (sf : String) :
    List ℚ :=
  respondent_values.foldl (fun acc rv =>
    acc ++ (rv.filter (fun kv => kv.1 == sf)).map (fun kv => kv.2)) []

/-- Per-subfield statistics block (analytics.py:661-697): empty sample →
`N/A` block (`Option.none` here); otherwise Excel quartiles for two or more
values, the sole value for a singleton. -/
def subfieldStats (values : List ℚ) : Option NumStats :=
  if values.isEmpty then none
  else
    let count := values.length
    let quartiles :=
      if count ≥ 2 then
        let sortedVals := pySorted values
        (calculate_excel_quartile sortedVals 1, calculate_excel_quartile sortedVals 3)
      else (values.getD 0 0, values.getD 0 0)
    some { count := count, min := listMin values, q1 := pyRound2 quartiles.1,
           median := pyRound2 (statMedian values), q3 := pyRound2 quartiles.2,
           max := listMax values, average := pyRound2 (statMean values),
           sum := pyRound2 values.sum }

/-- `calculate_form_fields_numeric_analytics` (analytics.py:597). The
reported `answered_count` is overridden to `base_count` and `skipped_count`
to `answered + skipped - base_count` (analytics.py:699-703). The source's
question-32 debug print has no effect on the result and is not modelled. -/
def calculate_form_fields_numeric_analytics (q : Question) (sessions : Sessions)
    (answered_count skipped_count : ℤ) (numeric_subfields : List String) :
    AnalyticsResult :=
  let respondent_values := formFieldsRespondentValues q sessions numeric_subfields
  let base_count := respondent_values.length
  let subfield_analytics := numeric_subfields.map (fun sf =>
    (sf, subfieldStats (subfieldSample respondent_values sf)))
  .form_fields_numeric q.question_text (base_count : ℤ)
    (answered_count + skipped_count - base_count) base_count subfield_analytics

/-! ### Dispatch (`calculate_analytics`, analytics.py:52) -/

/-- Last `n` characters of a string (Python `s[-n:]`). -/
def pyLastChars (n : ℕ) (s : String) : String :=
  String.mk ((s.toList.reverse.take n).reverse)

/-- The comment-collection loop (analytics.py:82-99): a dict answer with a
truthy `comment` whose stringification strips to nonempty contributes a
`{response_id[-12:], submitted_at, comment}` entry. -/
def extractComments (q : Question) (sessions : Sessions)
    (response_metadata : List (String × ResponseMeta)) : List CommentEntry :=
  sessions.foldl (fun acc sess =>
    let answer := qGet sess.2 q.id
    match answer with
    | .null => acc
    | .dict kvs =>
        if dHas kvs "comment" then
          let comment_text := dGet kvs "comment"
          if pyTruthy comment_text && pyStrip (pyStr comment_text) ≠ "" then
            let meta := List.find? (fun kv => kv.1 == sess.1) response_metadata
            let rid := match meta with | some m => m.2.response_id | none => sess.1
            let sub := match meta with | some m => m.2.submitted_at | none => none
            acc ++ [{ response_id := pyLastChars 12 rid, submitted_at := sub,
                      comment := pyStrip (pyStr comment_text) }]
          else acc
        else acc
    | _ => acc) []

/-- The numeric subfield validation types (analytics.py:114). -/
def numericFieldTypes : List String :=
  ["number", "positive_number", "negative_number", "all_numbers", "auto_calculate"]

/-- `validation.get('type', 'text')`, compared as a string (a non-string
validation type never matches the numeric list, exactly as in Python). -/
def validationTypeOf (v : Value) : String :=
  match v with
  | .dict kvs => if dHas kvs "type" then pyStr (dGet kvs "type") else "text"
  | _ => "text"

/-- The `numeric_subfields` detection (analytics.py:108-123): subfields
whose validation type is numeric, then the `Total/total/Sum/sum` fallback
candidates present among the question's subfields. -/
def numericSubfieldsOf (q : Question) : List String :=
  let fromValidations := q.subfield_validations.foldl (fun acc kv =>
    if numericFieldTypes.contains (validationTypeOf kv.2) then acc ++ [kv.1] else acc) []
  ["Total", "total", "Sum", "sum"].foldl (fun acc candidate =>
    if q.subfields.contains candidate && !acc.contains candidate then
      acc ++ [candidate]
    else acc) fromValidations

/-- The generic `answered_count`: sessions whose answer for the question is
not effectively blank (analytics.py:72-77). -/
def answeredCount (q : Question) (sessions : Sessions) : ℕ :=
  sessions.countP (fun sess => !is_effectively_blank_answer (qGet sess.2 q.id))

/-- `calculate_analytics` (analytics.py:52): per question, the generic
answered/skipped counts, comment collection, then dispatch on
`(primary_type, secondary_type)`. The `open_text` text/paragraph branch and
the final catch-all produce the same `other` payload and are merged; the
defensive fallback re-wrapping of a non-`'numeric'` result from
`calculate_numeric_analytics` is dead code (the callee always returns a
`'numeric'`-typed payload) and is not modelled. -/
def calculate_analytics (sessions : Sessions) (questions : List Question)
    (total_completed_responses : ℤ)
    (response_metadata : List (String × ResponseMeta)) :
    List (ℕ × AnalyticsResult) :=
  questions.map (fun question =>
    let answered_count : ℤ := (answeredCount question sessions : ℤ)
    let skipped_count : ℤ := total_completed_responses - answered_count
    let comments :=
      if question.has_comment_box then
        extractComments question sessions response_metadata
      else []
    let result :=
      if question.primary_type == "grid" then
        calculate_grid_analytics question sessions answered_count skipped_count comments
      else if question.primary_type == "form" && question.secondary_type == "form_fields" then
        let numeric_subfields := numericSubfieldsOf question
        if !numeric_subfields.isEmpty then
          calculate_form_fields_numeric_analytics question sessions answered_count
            skipped_count numeric_subfields
        else
          .other question.question_text answered_count skipped_count
            (if question.has_comment_box then comments else [])
      else if question.primary_type == "form" &&
          ["radio", "multiple_choices", "dropdown"].contains question.secondary_type then
        calculate_choice_analytics question sessions answered_count skipped_count comments
      else if question.primary_type == "open_text" &&
          ["number", "positive_number", "negative_number"].contains question.secondary_type then
        calculate_numeric_analytics question sessions answered_count skipped_count
      else
        .other question.question_text answered_count skipped_count
          (if question.has_comment_box then comments else [])
    (question.id, result))

/-! ### Segmentation engine (`segmentation_engine.py`) -/

/-- The segment map `{segment_name: set(session_id)}`: association list in
insertion order; the member lists are duplicate-free (Python sets). -/
abbrev SegMap := List (String × List String)

/-- Members of a segment (empty for an absent name). -/
def segLookup : SegMap → String → List String
  | [], _ => []
  | kv :: m, k => if kv.1 == k then kv.2 else segLookup m k

/-- `dict.setdefault(k, set())`. -/
def segSetdefault : SegMap → String → SegMap
  | [], k => [(k, [])]
  | kv :: m, k => if kv.1 == k then kv :: m else kv :: segSetdefault m k

/-- `m[k].add(sid)` (set insertion, so no duplicates). Every reachable call
is preceded by a `setdefault` on `k`, so inserting a fresh entry when the
key is absent mirrors the source. -/
def segAdd : SegMap → String → String → SegMap
  | [], k, sid => [(k, [sid])]
  | kv :: m, k, sid =>
      if kv.1 == k then
        (kv.1, if kv.2.contains sid then kv.2 else kv.2 ++ [sid]) :: m
      else kv :: segAdd m k sid

/-- `_get_total_fte_from_form_fields` (segmentation_engine.py:31): unwrap an
`{answer, ...}` envelope, require a dict, and sum every subfield value that
parses numerically; `None` when no subfield parsed. -/
def get_total_fte_from_form_fields (session_answers : Value) : Option ℚ :=
  match session_answers with
  | .dict kvs =>
      match (if dHas kvs "answer" then dGet kvs "answer" else .dict kvs) with
      | .dict ikvs =>
          let res := ikvs.foldl (fun (acc : ℚ × Bool) kv =>
            match seg_parse_numeric_value kv.2 with
            | some p => (acc.1 + p, true)
            | none => acc) (0, false)
          if res.2 then some res.1 else none
      | _ => none
  | _ => none

/-- `_get_location_answer` (segmentation_engine.py:58): falsy answers give
nothing; otherwise unwrap the envelope, stringify list elements or the
single non-`None` value. -/
def get_location_answer (session_answers : Value) : List String :=
  if !pyTruthy session_answers then []
  else
    let sa := match session_answers with
      | .dict kvs => if dHas kvs "answer" then dGet kvs "answer" else .dict kvs
      | v => v
    match sa with
    | .list xs => xs.map pyStr
    | .null => []
    | v => [pyStr v]

/-- One segmentation dimension, as parsed from the request JSON. The
`question_id`/`type` options model the `dimension.get(...)` results, with
Python falsiness (`None`/`0`, `None`/`''`) checked by the engine. -/
structure Dimension where
  question_id : Option ℕ
  dim_type : Option String
  ranges : List (String × Value)
  mapping : List (String × String)

/-- `not question_id` for the `.get("question_id")` result. -/
def qidFalsy : Option ℕ → Bool
  | none => true
  | some n => n == 0

/-- `not dim_type` for the `.get("type")` result. -/
def strOptFalsy : Option String → Bool
  | none => true
  | some s => s == ""

/-- `float(v)` on a range bound. `float` of a non-numeric string raises in
the source (no valid configuration produces one); the model rejects it,
which drops the range entry. -/
def floatCast : Value → Option ℚ
  | .num q => some q
  | .str s => pyFloat s
  | _ => none

/-- `None if b is None else float(b)` for one bound. -/
def normRangeBound : Value → Option (Option ℚ)
  | .null => some none
  | v => (floatCast v).map some

/-- The `norm_ranges` normalization (segmentation_engine.py:131-137): keep
entries that are two-element lists with castable bounds. -/
def normalizeRanges (ranges : List (String × Value)) :
    List (String × (Option ℚ × Option ℚ)) :=
  ranges.foldl (fun acc kv =>
    match kv.2 with
    | .list [a, b] =>
        match normRangeBound a, normRangeBound b with
        | some mn, some mx => acc ++ [(kv.1, (mn, mx))]
        | _, _ => acc
    | _ => acc) []

/-- The numeric value a `numeric_range` dimension derives for a session
(segmentation_engine.py:153-158): the multi-field sum for form-fields
questions, the single parsed value otherwise. -/
def segNumericValue (question : Question) (answer : Value) : Option ℚ :=
  if question.primary_type == "form" && question.secondary_type == "form_fields" then
    get_total_fte_from_form_fields answer
  else seg_parse_numeric_value answer

/-- `matches_min and matches_max` for one range (inclusive bounds, `None`
meaning unbounded on that side). -/
def boundsSatisfied (range_min range_max : Option ℚ) (t : ℚ) : Bool :=
  (match range_min with | none => true | some mn => decide (t ≥ mn)) &&
  (match range_max with | none => true | some mx => decide (t ≤ mx))

/-- Assigning one session by numeric total (segmentation_engine.py:160-176):
no value → `Unknown`; otherwise add to every range whose inclusive bounds
are satisfied, and to `Unknown` when none is. -/
def assignNumericSession (norm_ranges : List (String × (Option ℚ × Option ℚ)))
    (m : SegMap) (sid : String) (total : Option ℚ) : SegMap :=
  match total with
  | none => segAdd m ("Unknown") sid
  | some t =>
      let res := norm_ranges.foldl (fun (acc : SegMap × Bool) nr =>
        if boundsSatisfied nr.2.1 nr.2.2 t then (segAdd acc.1 nr.1 sid, true) else acc)
        (m, false)
      if res.2 then res.1 else segAdd res.1 ("Unknown") sid

/-- The choice answer values a `choice_mapping` dimension extracts
(segmentation_engine.py:197-218). The radio/dropdown branch and the
catch-all branch of the source are the same code. -/
def segChoiceValues (question : Question) (answer : Value) : List String :=
  if question.primary_type == "form" && question.secondary_type == "multiple_choices" then
    get_location_answer answer
  else
    let answer_value := match answer with
      | .dict kvs => if dHas kvs "answer" then dGet kvs "answer" else .dict kvs
      | v => v
    if pyTruthy answer_value then [pyStr answer_value] else []

/-- Mapping one raw label to its destination segment
(segmentation_engine.py:229-239): exact dict lookup first, falsy results
fall back to the first case-insensitive/trimmed key match; a falsy final
name means no destination. -/
def mappingLookup (mapping : List (String × String)) (raw_value : String) :
    Option String :=
  let exact := match List.find? (fun kv => kv.1 == raw_value) mapping with
    | some kv => kv.2
    | none => ""
  let segment_name :=
    if exact == "" then
      match List.find?
          (fun kv => pyLower (pyStrip kv.1) == pyLower (pyStrip raw_value)) mapping with
      | some kv => kv.2
      | none => ""
    else exact
  if segment_name == "" then none else some segment_name

/-- Assigning one session by choice mapping (segmentation_engine.py:220-247). -/
def assignChoiceSession (mapping : List (String × String)) (m : SegMap) (sid : String)
    (answer_values : List String) : SegMap :=
  if answer_values.isEmpty then segAdd m ("Unknown") sid
  else
    let res := answer_values.foldl (fun (acc : SegMap × Bool) raw_value =>
      match mappingLookup mapping raw_value with
      | some segment_name => (segAdd acc.1 segment_name sid, true)
      | none => acc) (m, false)
    if res.2 then res.1 else segAdd res.1 ("Unknown") sid

/-- Processing one dimension of the configuration
(segmentation_engine.py:114-247). Folding `setdefault` over the mapping's
possibly-repeated destination values equals the source's fold over
`set(mapping.values())` because `setdefault` is idempotent. -/
def processDimension (sessions : Sessions) (all_questions : List Question)
    (m : SegMap) (dimension : Dimension) : SegMap :=
  if qidFalsy dimension.question_id || strOptFalsy dimension.dim_type then m
  else
    let qid := dimension.question_id.getD 0
    match List.find? (fun q => q.id == qid) all_questions with
    | none => m
    | some question =>
      if dimension.dim_type == some "numeric_range" then
        if dimension.ranges.isEmpty then m
        else
          let norm_ranges := normalizeRanges dimension.ranges
          if norm_ranges.isEmpty then m
          else
            let m := norm_ranges.foldl (fun acc nr => segSetdefault acc nr.1) m
            let m := segSetdefault m ("Unknown")
            sessions.foldl (fun acc sess =>
              assignNumericSession norm_ranges acc sess.1
                (segNumericValue question (qGet sess.2 qid))) m
      else if dimension.dim_type == some "choice_mapping" then
        if dimension.mapping.isEmpty then m
        else
          let m := (dimension.mapping.map (fun kv => kv.2)).foldl
            (fun acc s => segSetdefault acc s) m
          let m := segSetdefault m ("Unknown")
          sessions.foldl (fun acc sess =>
            assignChoiceSession dimension.mapping acc sess.1
              (segChoiceValues question (qGet sess.2 qid))) m
      else m

/-- The segmentation request: a list of independent dimensions. -/
structure SegmentationConfig where
  dimensions : List Dimension

/-- `segment_sessions` (segmentation_engine.py:75): start from
`"All responses"` holding every session id, then process each dimension. -/
def segment_sessions (sessions : Sessions) (segmentation_config : SegmentationConfig)
    (all_questions : List Question) : SegMap :=
  let m : SegMap := [("All responses", sessions.map (fun sess => sess.1))]
  segmentation_config.dimensions.foldl (processDimension sessions all_questions) m

/-- Pointwise inclusion of segment maps: every member of every segment of
`m` is a member of the same segment of `m'`. The engine only ever adds
members, so each processing step grows the map in this order. -/
def SegMapLE (m m' : SegMap) : Prop :=
  ∀ k sid, sid ∈ segLookup m k → sid ∈ segLookup m' k

/-! ### Filter engine (`export_filtered_analytics`, views.py:823-895) -/

/-- A validated filter: `choice` with its selected options, or
`numeric_range` with its question and bounds (`None` = unbounded side). -/
inductive FilterInfo where
  | choice (selected_options : List String)
  | numeric_range (question : Question) (range_min range_max : Option ℚ)

/-- The validated `filter_questions` map: question id → filter info. -/
abbrev Filters := List (ℕ × FilterInfo)

/-- Answer values of a choice filter (views.py:836-843): unwrap the
envelope, stringify list elements or the single non-`None` value. -/
def filterChoiceValues (answer : Value) : List String :=
  let answer := match answer with
    | .dict kvs => if dHas kvs "answer" then dGet kvs "answer" else .dict kvs
    | v => v
  match answer with
  | .list xs => xs.map pyStr
  | .null => []
  | v => [pyStr v]

/-- The numeric value a `numeric_range` filter derives (views.py:862-878):
the multi-field sum for form-fields questions; otherwise unwrap the
envelope (blank inner values give no value) and parse with the segmentation
engine's `_parse_numeric_value` (imported there at views.py:737). -/
def filterNumericValue (question : Question) (answer : Value) : Option ℚ :=
  if question.primary_type == "form" && question.secondary_type == "form_fields" then
    get_total_fte_from_form_fields answer
  else
    match answer with
    | .dict kvs =>
        if dHas kvs "answer" then
          let inner := dGet kvs "answer"
          if is_blank_value inner then none
          else seg_parse_numeric_value inner
        else seg_parse_numeric_value (.dict kvs)
    | v => seg_parse_numeric_value v

/-- Whether one filter matches a session's answers (views.py:830-888).
Choice: any answer value among the selected options. Numeric range:
effectively-blank answers never match; otherwise the derived value must
exist and satisfy the inclusive bounds. -/
def matchesFilter (answers : Session) (f : ℕ × FilterInfo) : Bool :=
  let answer := qGet answers f.1
  match f.2 with
  | .choice selected_options =>
      (filterChoiceValues answer).any (fun v => selected_options.contains v)
  | .numeric_range question range_min range_max =>
      if is_effectively_blank_answer answer then false
      else
        match filterNumericValue question answer with
        | none => false
        | some numeric_value =>
            (match range_min with | none => true | some mn => decide (numeric_value ≥ mn)) &&
            (match range_max with | none => true | some mx => decide (numeric_value ≤ mx))

/-- `matches_all_filters` with the source's early `break` on the first
failing filter. -/
def matchesAllFilters (filter_questions : Filters) (answers : Session) : Bool :=
  match filter_questions with
  | [] => true
  | f :: fs => if matchesFilter answers f then matchesAllFilters fs answers else false

/-- The `filtered_sessions` construction (views.py:825-895): keep the
sessions matching all filters, in order. -/
def filterSessions (sessions : Sessions) (filter_questions : Filters) : Sessions :=
  sessions.filter (fun sess => matchesAllFilters filter_questions sess.2)

/-! ### Participation predicates and concrete fixtures used by the
verification statements -/

/-- Whether a session has at least one extracted selection for a choice
question (the denominator membership condition). -/
def choiceParticipates (q : Question) (sess : String × Session) : Bool :=
  !(choiceSelectedOptions (qGet sess.2 q.id)).isEmpty

/-- Whether a session has at least one known-column selection for a grid
row (the per-row denominator membership condition). -/
def gridRowParticipates (q : Question) (row : String) (sess : String × Session) : Bool :=
  (gridSelectedColumns (q.secondary_type == "grid_multi")
      (rowAnswerOf (qGet sess.2 q.id) row)).any
    (fun col => q.columns.contains (pyStr col))

/-- An empty question template for building fixtures. -/
def baseQuestion : Question :=
  { id := 0, primary_type := "", secondary_type := "", question_text := "",
    options := [], has_other_option := false, has_none_option := false,
    none_option_text := "", has_comment_box := false, rows := [], columns := [],
    subfields := [], subfield_validations := [] }

/-- A numeric open-text question (id 1). -/
def qNum : Question :=
  { baseQuestion with
    id := 1, primary_type := "open_text",
    secondary_type := "number", question_text := "n" }

/-- A multiple-choice question (id 2) with options X, Y, Z. -/
def qChoice : Question :=
  { baseQuestion with
    id := 2, primary_type := "form",
    secondary_type := "multiple_choices", question_text := "c",
    options := [.str "X", .str "Y", .str "Z"] }

/-- A numeric form-fields question (id 3) with numeric subfields a, b. -/
def qFF : Question :=
  { baseQuestion with
    id := 3, primary_type := "form",
    secondary_type := "form_fields", question_text := "ff",
    subfields := ["a", "b"],
    subfield_validations :=
      [("a", .dict [("type", .str "number")]), ("b", .dict [("type", .str "number")])] }

/-- A single-select grid question (id 4). -/
def qGrid : Question :=
  { baseQuestion with
    id := 4, primary_type := "grid",
    secondary_type := "grid_radio", question_text := "g",
    rows := ["r1", "r2"], columns := ["c1", "c2"] }

/-- Four sessions answering 1, 2, 3, 4 to the numeric question. -/
def sessNums : Sessions :=
  [("s1", [(1, .num 1)]), ("s2", [(1, .num 2)]),
   ("s3", [(1, .num 3)]), ("s4", [(1, .num 4)])]

/-- One session answering 5. -/
def sessSingle : Sessions := [("s1", [(1, .num 5)])]

/-- One session with a blank (empty-string) numeric answer. -/
def sessBlank : Sessions := [("s1", [(1, .str "")])]

/-- One session answering the scalar 0. -/
def sessZero : Sessions := [("s1", [(1, .num 0)])]

/-- One session answering the string "0". -/
def sessZeroStr : Sessions := [("s1", [(1, .str "0")])]

/-- One session answering 0 inside an `{answer, comment}` envelope. -/
def sessZeroEnvelope : Sessions :=
  [("s1", [(1, .dict [("answer", .num 0), ("comment", .str "hi")])])]

/-- Choice sessions: one selecting Y and Z, one selecting nothing, one
selecting X. -/
def sessChoice : Sessions :=
  [("s1", [(2, .list [.str "Y", .str "Z"])]), ("s2", [(2, .list [])]),
   ("s3", [(2, .str "X")])]

/-- Form-fields sessions: one with an explicit 0 in `a` and blank `b`, one
with both subfields blank. -/
def sessFF : Sessions :=
  [("s1", [(3, .dict [("a", .num 0), ("b", .str "")])]),
   ("s2", [(3, .dict [("a", .str ""), ("b", .null)])])]

/-- Grid sessions: one valid selection for row r1; one session answering an
unknown column for r1 and a valid one for r2. -/
def sessGrid : Sessions :=
  [("s1", [(4, .dict [("r1", .str "c1")])]),
   ("s2", [(4, .dict [("r1", .str "zz"), ("r2", .str "c2")])])]

/-- The overlapping-ranges dimension of the specification's example:
`{"A": [0, 10], "B": [5, 15]}` over question 1. -/
def dimOverlap : Dimension :=
  { question_id := some 1, dim_type := some "numeric_range",
    ranges := [("A", .list [.num 0, .num 10]), ("B", .list [.num 5, .num 15])],
    mapping := [] }

/-- A configuration holding only the overlapping dimension. -/
def segCfgOverlap : SegmentationConfig := { dimensions := [dimOverlap] }

/-- One session whose numeric answer is 7. -/
def sessSeven : Sessions := [("s1", [(1, .num 7)])]

/-- An `{answer: 5}` envelope (non-blank). -/
def envelopeFive : Value := .dict [("answer", .num 5)]

/-! ## Theorems -/

/-- `blankKvs` is `all` of the blank predicate over the non-comment
entries. -/
theorem blankKvs_eq_filter_all (kvs : List (String × Value)) :
    blankKvs kvs
      = (kvs.filter (fun kv => !(commentKeys.contains kv.1))).all
          (fun kv => is_blank_value kv.2) := by
  induction kvs with
  | nil => rfl
  | cons kv rest ih =>
      by_cases h : kv.1 ∈ commentKeys
      · simp [blankKvs, List.filter_cons, h, ih]
      · simp [blankKvs, List.filter_cons, h, ih]

/-- A string of whitespace characters strips to the empty string, hence is
blank. -/
theorem is_blank_whitespace (s : String)
    (h : s.toList.all Char.isWhitespace = true) :
    is_blank_value (.str s) = true := by
  have h1 : s.data.dropWhile Char.isWhitespace = [] :=
    List.dropWhile_eq_nil_iff.mpr (by simpa [List.all_eq_true, String.toList] using h)
  simp [is_blank_value, pyStrip, String.toList, h1]

/-- C2: the shared blank predicate returns `False` for the number 0, `True`
for the empty string and for whitespace-only strings, `True` for the empty
list, `True` for `None`, and `True` for a mapping whose entries, after
excluding the comment-only keys `comment` and `comments`, are all themselves
blank (recursively); in particular a dict containing only a comment key is
blank. -/
theorem C2_blank_predicate :
    is_blank_value (.num 0) = false
    ∧ is_blank_value (.str "") = true
    ∧ (∀ s : String, s.toList.all Char.isWhitespace = true →
        is_blank_value (.str s) = true)
    ∧ is_blank_value (.list []) = true
    ∧ is_blank_value .null = true
    ∧ (∀ kvs : List (String × Value),
        is_blank_value (.dict kvs)
          = (kvs.filter (fun kv => !(commentKeys.contains kv.1))).all
              (fun kv => is_blank_value kv.2))
    ∧ (∀ v : Value, is_blank_value (.dict [("comment", v)]) = true) := by
  refine ⟨by decide, by decide, is_blank_whitespace, by decide, by decide, ?_, ?_⟩
  · intro kvs
    rw [is_blank_value]
    split
    · next hemp =>
        rw [List.isEmpty_iff] at hemp
        rw [hemp]
        rfl
    · exact blankKvs_eq_filter_all kvs
  · intro v
    rfl

/-- C2 witness: the whitespace-only clause at the concrete string
`" \t "`. -/
theorem C2_blank_predicate_witness :
    (" \t ".toList.all Char.isWhitespace = true)
    ∧ is_blank_value (.str " \t ") = true :=
  ⟨by decide, C2_blank_predicate.2.2.1 (" \t ") (by decide)⟩

/-- C3: the numeric algorithm's quartiles follow the inclusive method: for
the collected sample `[1,2,3,4]` it reports Q1 = 1.75, median = 2.5,
Q3 = 3.25; for the one-element sample `[5]` all five order statistics are 5;
and for an empty sample it returns the `'No valid numeric responses'`
payload (count 0). -/
theorem C3_inclusive_quartiles :
    collectNumericValues qNum sessNums = [1, 2, 3, 4]
    ∧ calculate_numeric_analytics qNum sessNums 4 0
        = .numeric "n" 4 4 0 1 (7/4) (5/2) (13/4) 4 (5/2) 10
    ∧ collectNumericValues qNum sessSingle = [5]
    ∧ calculate_numeric_analytics qNum sessSingle 1 0
        = .numeric "n" 1 1 0 5 5 5 5 5 5 5
    ∧ collectNumericValues qNum sessBlank = []
    ∧ calculate_numeric_analytics qNum sessBlank 0 1
        = .numericEmpty "n" 0 1 := by
  refine ⟨by decide, by decide, by decide, by decide, by decide, by decide⟩

/-- C1: for every question processed by `calculate_analytics`, over any
session map, question list and declared total, the reported
`answered_count + skipped_count` equals the total — in every result
variant, including the multi-field-numeric one where `answered_count` is
overridden to `base_count` and `skipped_count` to total minus
`base_count`. -/
theorem C1_answered_plus_skipped (sessions : Sessions) (questions : List Question)
    (total : ℤ) (meta : List (String × ResponseMeta)) :
    ∀ p ∈ calculate_analytics sessions questions total meta,
      p.2.answered_count + p.2.skipped_count = total := by
  intro p hp
  rw [calculate_analytics, List.mem_map] at hp
  obtain ⟨q, hq, rfl⟩ := hp
  dsimp only
  simp only [calculate_grid_analytics, calculate_choice_analytics,
    calculate_numeric_analytics, calculate_form_fields_numeric_analytics]
  split_ifs <;>
    simp only [AnalyticsResult.answered_count, AnalyticsResult.skipped_count] <;>
    ring

/-- C1 witness: the numeric question over the four-session fixture, with
total 4. -/
theorem C1_answered_plus_skipped_witness :
    ((1 : ℕ),
        AnalyticsResult.numeric "n" 4 4 0 1 (7/4) (5/2) (13/4) 4 (5/2) 10).2.answered_count
      + ((1 : ℕ),
        AnalyticsResult.numeric "n" 4 4 0 1 (7/4) (5/2) (13/4) 4 (5/2) 10).2.skipped_count
      = 4 :=
  C1_answered_plus_skipped sessNums [qNum] 4 []
    ((1 : ℕ), AnalyticsResult.numeric "n" 4 4 0 1 (7/4) (5/2) (13/4) 4 (5/2) 10)
    (by decide)

/-- Counting one selection never changes the session total. -/
theorem countNormal_total (st : ChoiceState) (v : Value) :
    (countNormal st v).total = st.total := by
  unfold countNormal
  dsimp only
  split <;> split_ifs <;> rfl

/-- Counting one selection never changes the session total (outer
dispatch). -/
theorem countOneSelected_total (st : ChoiceState) (v : Value) :
    (countOneSelected st v).total = st.total := by
  unfold countOneSelected
  cases v with
  | str s =>
      dsimp only
      split
      · rfl
      · exact countNormal_total ..
  | dict kvs =>
      dsimp only
      split
      · rfl
      · exact countNormal_total ..
  | null => exact countNormal_total ..
  | num q => exact countNormal_total ..
  | list xs => exact countNormal_total ..

/-- Folding the option counter over the selections keeps the total. -/
theorem foldl_countOneSelected_total (selected : List Value) (st : ChoiceState) :
    (selected.foldl countOneSelected st).total = st.total := by
  induction selected generalizing st with
  | nil => rfl
  | cons v vs ih => rw [List.foldl_cons, ih, countOneSelected_total]

/-- One session raises the total by one exactly when it has at least one
extracted selection. -/
theorem choiceSessionStep_total (q : Question) (st : ChoiceState)
    (sess : String × Session) :
    (choiceSessionStep q st sess).total
      = st.total + (if choiceParticipates q sess then 1 else 0) := by
  unfold choiceSessionStep choiceParticipates
  by_cases h : (choiceSelectedOptions (qGet sess.2 q.id)).isEmpty
  · simp [h]
  · simp [h, foldl_countOneSelected_total]

/-- The choice total over a session list counts the participating
sessions. -/
theorem choice_fold_total (q : Question) (sessions : Sessions) (st : ChoiceState) :
    (sessions.foldl (choiceSessionStep q) st).total
      = st.total + sessions.countP (choiceParticipates q) := by
  induction sessions generalizing st with
  | nil => simp
  | cons sess rest ih =>
      rw [List.foldl_cons, ih, choiceSessionStep_total, List.countP_cons]
      by_cases hp : choiceParticipates q sess
      · simp [hp]
        omega
      · simp [hp]

/-- Every option row's percentage is the rounded `count/total*100` (0 when
the total is 0). -/
theorem choice_percentage_eq (q : Question) (sessions : Sessions) (a k : ℤ)
    (c : List CommentEntry) :
    ∀ r ∈ (calculate_choice_analytics q sessions a k c).results,
      r.percentage
        = pyRound2 (if 0 < (calculate_choice_analytics q sessions a k c).total_responses
            then (r.count : ℚ)
                / (calculate_choice_analytics q sessions a k c).total_responses * 100
            else 0) := by
  intro r hr
  obtain ⟨opt, _, rfl⟩ := List.mem_map.mp hr
  rfl

/-- C4: in the choice algorithm a session with zero extracted selections
(after unwrapping any `{answer, comment}` envelope) is excluded from the
denominator entirely: `total_responses` equals the number of sessions with
at least one selection; each option's percentage equals
`count / total_responses * 100` rounded to 2 decimals, and is 0 when
`total_responses` is 0. -/
theorem C4_choice_denominator (q : Question) (sessions : Sessions) (a k : ℤ)
    (c : List CommentEntry) :
    (calculate_choice_analytics q sessions a k c).total_responses
      = sessions.countP (choiceParticipates q)
    ∧ (∀ r ∈ (calculate_choice_analytics q sessions a k c).results,
        r.percentage
          = pyRound2 (if 0 < (calculate_choice_analytics q sessions a k c).total_responses
              then (r.count : ℚ)
                  / (calculate_choice_analytics q sessions a k c).total_responses * 100
              else 0))
    ∧ ((calculate_choice_analytics q sessions a k c).total_responses = 0 →
        ∀ r ∈ (calculate_choice_analytics q sessions a k c).results,
          r.percentage = 0) := by
  refine ⟨?_, choice_percentage_eq q sessions a k c, ?_⟩
  · show (sessions.foldl (choiceSessionStep q) _).total = _
    rw [choice_fold_total]
    simp
  · intro h0 r hr
    rw [choice_percentage_eq q sessions a k c r hr, h0]
    have h1 : pyRound2 0 = 0 := by decide
    simp [h1]

/-- C4 witness: option X of the three-session fixture (total 2). -/
theorem C4_choice_denominator_witness :
    OptionStat.percentage ⟨"X", 1, 50⟩
      = pyRound2 (if 0 < (calculate_choice_analytics qChoice sessChoice 3 0 []).total_responses
          then ((⟨"X", 1, 50⟩ : OptionStat).count : ℚ)
              / (calculate_choice_analytics qChoice sessChoice 3 0 []).total_responses * 100
          else 0) :=
  (C4_choice_denominator qChoice sessChoice 3 0 []).2.1 ⟨"X", 1, 50⟩ (by decide)

/-- The valid-selection counter of the per-row loop counts the selections
whose column is configured. -/
theorem grid_fold_snd (cols : List String) (selected : List Value)
    (acc : List (String × ℕ) × ℕ) :
    (selected.foldl (fun (acc : List (String × ℕ) × ℕ) col =>
        if cols.contains (pyStr col) then (bumpCount acc.1 (pyStr col), acc.2 + 1)
        else acc) acc).2
      = acc.2 + selected.countP (fun col => cols.contains (pyStr col)) := by
  induction selected generalizing acc with
  | nil => simp
  | cons v vs ih =>
      rw [List.foldl_cons, List.countP_cons]
      by_cases h : cols.contains (pyStr v)
      · rw [if_pos h, ih, if_pos h]
        dsimp only
        omega
      · rw [if_neg h, ih, if_neg h]
        omega

/-- No selections are extracted from a `None` row answer. -/
theorem gridSelectedColumns_null (is_multi : Bool) :
    gridSelectedColumns is_multi .null = [] := by
  cases is_multi <;> rfl

/-- The common body of the per-row session step: the total goes up by one
exactly when some selection has a configured column. -/
theorem grid_step_aux (q : Question) (row : String) (st : GridRowState) (v : Value) :
    (let selected := gridSelectedColumns (q.secondary_type == "grid_multi")
        (rowAnswerOf v row)
     let res := selected.foldl (fun (acc : List (String × ℕ) × ℕ) col =>
        if q.columns.contains (pyStr col) then (bumpCount acc.1 (pyStr col), acc.2 + 1)
        else acc) (st.row_responses, 0)
     ({ row_responses := res.1,
        total := if res.2 > 0 then st.total + 1 else st.total } : GridRowState)).total
      = st.total
        + (if (gridSelectedColumns (q.secondary_type == "grid_multi")
            (rowAnswerOf v row)).any (fun col => q.columns.contains (pyStr col))
          then 1 else 0) := by
  dsimp only
  rw [grid_fold_snd]
  dsimp only
  rw [Nat.zero_add]
  by_cases h : (gridSelectedColumns (q.secondary_type == "grid_multi")
      (rowAnswerOf v row)).any (fun col => q.columns.contains (pyStr col))
  · have hpos : 0 < (gridSelectedColumns (q.secondary_type == "grid_multi")
        (rowAnswerOf v row)).countP (fun col => q.columns.contains (pyStr col)) := by
      rw [List.countP_pos_iff]
      obtain ⟨a, ha, hc⟩ := List.any_eq_true.mp h
      exact ⟨a, ha, hc⟩
    rw [if_pos hpos, if_pos h]
  · have hz : (gridSelectedColumns (q.secondary_type == "grid_multi")
        (rowAnswerOf v row)).countP (fun col => q.columns.contains (pyStr col)) = 0 := by
      rw [List.countP_eq_zero]
      intro a ha hc
      exact h (List.any_eq_true.mpr ⟨a, ha, hc⟩)
    rw [hz, if_neg (by omega), if_neg h]
    omega

/-- One session raises a row's total by one exactly when it has a valid
(known-column) selection for that row. -/
theorem gridRowSessionStep_total (q : Question) (row : String)
    (st : GridRowState) (sess : String × Session) :
    (gridRowSessionStep q row (q.secondary_type == "grid_multi") st sess).total
      = st.total + (if gridRowParticipates q row sess then 1 else 0) := by
  unfold gridRowSessionStep gridRowParticipates
  cases hqget : qGet sess.2 q.id with
  | null => simp [rowAnswerOf, gridSelectedColumns_null]
  | str s => exact grid_step_aux q row st (.str s)
  | num n => exact grid_step_aux q row st (.num n)
  | list xs => exact grid_step_aux q row st (.list xs)
  | dict kvs => exact grid_step_aux q row st (.dict kvs)

/-- A row's total over a session list counts the participating sessions. -/
theorem grid_fold_total (q : Question) (row : String) (sessions : Sessions)
    (st : GridRowState) :
    (sessions.foldl (gridRowSessionStep q row (q.secondary_type == "grid_multi")) st).total
      = st.total + sessions.countP (gridRowParticipates q row) := by
  induction sessions generalizing st with
  | nil => simp
  | cons sess rest ih =>
      rw [List.foldl_cons, ih, gridRowSessionStep_total, List.countP_cons]
      by_cases hp : gridRowParticipates q row sess
      · simp [hp]
        omega
      · simp [hp]

/-- The row denominator is exactly the number of sessions with at least one
valid selection for that row. -/
theorem gridRowResult_total (q : Question) (sessions : Sessions) (row : String) :
    (gridRowResult q sessions row).total_responses
      = sessions.countP (gridRowParticipates q row) := by
  show (sessions.foldl (gridRowSessionStep q row (q.secondary_type == "grid_multi")) _).total
    = _
  rw [grid_fold_total]
  simp

/-- Every column entry's percentage for a row is the rounded
`count/total_row*100` against the row's own denominator. -/
theorem gridRowResult_percentage (q : Question) (sessions : Sessions) (row : String) :
    ∀ cs ∈ (gridRowResult q sessions row).columns,
      cs.percentage
        = pyRound2 (if 0 < (gridRowResult q sessions row).total_responses
            then (cs.count : ℚ) / (gridRowResult q sessions row).total_responses * 100
            else 0) := by
  intro cs hcs
  obtain ⟨col, _, rfl⟩ := List.mem_map.mp hcs
  rfl

/-- C5: in the grid algorithm, for each row independently, a session
contributes to that row's denominator `total_row_responses` only if it has
at least one selection for that row whose column name is among the
configured columns (unrecognized columns are silently dropped), and each
column's percentage for that row is computed against that row's own
denominator. -/
theorem C5_grid_row_independence (q : Question) (sessions : Sessions) (a k : ℤ)
    (c : List CommentEntry) :
    ∀ p ∈ (calculate_grid_analytics q sessions a k c).rows,
      p.2.total_responses = sessions.countP (gridRowParticipates q p.1)
      ∧ ∀ cs ∈ p.2.columns,
          cs.percentage
            = pyRound2 (if 0 < p.2.total_responses
                then (cs.count : ℚ) / p.2.total_responses * 100 else 0) := by
  intro p hp
  rw [calculate_grid_analytics] at hp
  split at hp
  · exact absurd hp (List.not_mem_nil p)
  · obtain ⟨row, hrow, rfl⟩ := List.mem_map.mp hp
    exact ⟨gridRowResult_total q sessions row, gridRowResult_percentage q sessions row⟩

/-- C5 witness: row r1 of the grid fixture — the session selecting only the
unknown column `zz` is not in r1's denominator, and c1's percentage uses
r1's own total of 1. -/
theorem C5_grid_row_independence_witness :
    (("r1", (⟨1, [⟨"c1", 1, 100⟩, ⟨"c2", 0, 0⟩]⟩ : RowResult)) : String × RowResult).2.total_responses
      = sessGrid.countP (gridRowParticipates qGrid "r1")
    ∧ ∀ cs ∈ (("r1", (⟨1, [⟨"c1", 1, 100⟩, ⟨"c2", 0, 0⟩]⟩ : RowResult)) :
        String × RowResult).2.columns,
        cs.percentage
          = pyRound2 (if 0 < (("r1", (⟨1, [⟨"c1", 1, 100⟩, ⟨"c2", 0, 0⟩]⟩ : RowResult)) :
              String × RowResult).2.total_responses
              then (cs.count : ℚ)
                  / (("r1", (⟨1, [⟨"c1", 1, 100⟩, ⟨"c2", 0, 0⟩]⟩ : RowResult)) :
                    String × RowResult).2.total_responses * 100
              else 0) :=
  C5_grid_row_independence qGrid sessGrid 2 0 []
    ("r1", (⟨1, [⟨"c1", 1, 100⟩, ⟨"c2", 0, 0⟩]⟩ : RowResult)) (by decide)

/-- A fold whose step preserves zero-freeness yields a zero-free list. -/
theorem zero_not_mem_foldl {α : Type} (f : List ℚ → α → List ℚ)
    (hf : ∀ acc x, (0 : ℚ) ∉ acc → (0 : ℚ) ∉ f acc x) :
    ∀ (l : List α) (acc : List ℚ), (0 : ℚ) ∉ acc → (0 : ℚ) ∉ l.foldl f acc := by
  intro l
  induction l with
  | nil => intro acc h; exact h
  | cons x xs ih => intro acc h; exact ih (f acc x) (hf acc x h)

/-- The scalar extraction branch never produces 0 (the `parsed != 0`
guard). -/
theorem zero_not_mem_scalar (v : Value) :
    (0 : ℚ) ∉ (match parse_numeric_value v with
      | some p => if p ≠ 0 then ([p] : List ℚ) else []
      | none => ([] : List ℚ)) := by
  cases parse_numeric_value v with
  | none => simp
  | some p =>
      dsimp only
      by_cases h0 : p = 0
      · rw [if_neg (fun hne => hne h0)]
        simp
      · rw [if_pos h0]
        intro hm
        exact h0 (List.mem_singleton.mp hm).symm

/-- The envelope-dict accumulation step never introduces 0. -/
theorem zero_not_mem_env_step (acc : List ℚ) (kv : String × Value)
    (h : (0 : ℚ) ∉ acc) :
    (0 : ℚ) ∉ (if is_blank_value kv.2 then acc
      else match parse_numeric_value kv.2 with
        | some p => if p ≠ 0 then acc ++ [p] else acc
        | none => acc) := by
  split
  · exact h
  · cases parse_numeric_value kv.2 with
    | none => exact h
    | some p =>
        dsimp only
        by_cases h0 : p = 0
        · rw [if_neg (fun hne => hne h0)]
          exact h
        · rw [if_pos h0]
          intro hm
          rcases List.mem_append.mp hm with hm | hm
          · exact h hm
          · exact h0 (List.mem_singleton.mp hm).symm

/-- The regular-dict accumulation step never introduces 0. -/
theorem zero_not_mem_reg_step (acc : List ℚ) (kv : String × Value)
    (h : (0 : ℚ) ∉ acc) :
    (0 : ℚ) ∉ (if commentKeys.contains kv.1 then acc
      else if is_blank_value kv.2 then acc
      else match parse_numeric_value kv.2 with
        | some p => if p ≠ 0 then acc ++ [p] else acc
        | none => acc) := by
  split
  · exact h
  · exact zero_not_mem_env_step acc kv h

/-- No extraction path of the plain numeric algorithm emits the value 0. -/
theorem zero_not_mem_values (answer : Value) :
    (0 : ℚ) ∉ numericValuesOfAnswer answer := by
  unfold numericValuesOfAnswer
  cases answer with
  | null => exact zero_not_mem_scalar .null
  | str s => exact zero_not_mem_scalar (.str s)
  | num n => exact zero_not_mem_scalar (.num n)
  | list xs => exact zero_not_mem_scalar (.list xs)
  | dict kvs =>
      dsimp only
      split
      · split
        · simp
        · cases dGet kvs "answer" with
          | dict ikvs =>
              exact zero_not_mem_foldl _
                (fun acc kv h => zero_not_mem_env_step acc kv h) ikvs [] (by simp)
          | null => exact zero_not_mem_scalar .null
          | str s => exact zero_not_mem_scalar (.str s)
          | num n => exact zero_not_mem_scalar (.num n)
          | list xs => exact zero_not_mem_scalar (.list xs)
      · exact zero_not_mem_foldl _
          (fun acc kv h => zero_not_mem_reg_step acc kv h) kvs [] (by simp)

/-- The collected numeric sample of `calculate_numeric_analytics` never
contains 0, whatever the sessions hold. -/
theorem zero_not_mem_collect (q : Question) (sessions : Sessions) :
    (0 : ℚ) ∉ collectNumericValues q sessions := by
  unfold collectNumericValues
  refine zero_not_mem_foldl _ ?_ sessions [] (by simp)
  intro acc sess h
  dsimp only
  split
  · exact h
  · intro hm
    rcases List.mem_append.mp hm with hm | hm
    · exact h hm
    · exact zero_not_mem_values _ hm

/-- C6 counterexample: a session whose non-blank raw answer is the
top-level scalar 0 (or the string "0", or 0 inside an `{answer, comment}`
envelope) contributes nothing to the collected sample — the claim asserts
it would contribute the value 0. -/
theorem C6_counterexample :
    is_effectively_blank_answer (.num 0) = false
    ∧ collectNumericValues qNum sessZero = []
    ∧ collectNumericValues qNum sessZeroStr = []
    ∧ collectNumericValues qNum sessZeroEnvelope = []
    ∧ calculate_numeric_analytics qNum sessZero 1 0 = .numericEmpty "n" 1 0 := by
  refine ⟨by decide, by decide, by decide, by decide, by decide⟩

/-- C6 amended: in the plain numeric algorithm the exclusion of values that
parse to exactly 0 applies to every extraction path — top-level scalars,
scalars inside an `{answer, comment}` envelope, and values inside nested
dicts alike — so the collected sample never contains 0 (filtering zeros out
of it changes nothing). -/
theorem C6_zero_excluded_everywhere (q : Question) (sessions : Sessions) :
    (collectNumericValues q sessions).filter (fun v => v ≠ 0)
      = collectNumericValues q sessions :=
  List.filter_eq_self.mpr (fun a ha =>
    decide_eq_true (fun h0 : a = 0 => zero_not_mem_collect q sessions (h0 ▸ ha)))

/-- The common body of the form-fields session step: the respondent list
grows by one exactly when the session contributes. -/
theorem ff_step_aux (subs : List String) (acc : List (List (String × ℚ)))
    (v : Value) :
    (match ffUnwrap v with
     | .dict kvs =>
         if (parseRespondent subs kvs).isEmpty then acc
         else acc ++ [parseRespondent subs kvs]
     | _ => acc).length
      = acc.length + (if (match ffUnwrap v with
          | .dict kvs => !(parseRespondent subs kvs).isEmpty
          | _ => false) then 1 else 0) := by
  cases ffUnwrap v with
  | dict kvs => by_cases he : (parseRespondent subs kvs).isEmpty <;> simp [he]
  | null => simp
  | str s => simp
  | num n => simp
  | list xs => simp

/-- One session raises the respondent count by one exactly when it
contributes to the base. -/
theorem ffSessionStep_length (q : Question) (subs : List String)
    (acc : List (List (String × ℚ))) (sess : String × Session) :
    (ffSessionStep q subs acc sess).length
      = acc.length + (if ffContributes q subs sess then 1 else 0) := by
  unfold ffSessionStep ffContributes
  cases hv : qGet sess.2 q.id with
  | null => simp
  | str s => exact ff_step_aux subs acc (.str s)
  | num n => exact ff_step_aux subs acc (.num n)
  | list xs => exact ff_step_aux subs acc (.list xs)
  | dict kvs => exact ff_step_aux subs acc (.dict kvs)

/-- The respondent list length counts the contributing sessions. -/
theorem ff_fold_length (q : Question) (subs : List String) (sessions : Sessions)
    (acc : List (List (String × ℚ))) :
    (sessions.foldl (ffSessionStep q subs) acc).length
      = acc.length + sessions.countP (ffContributes q subs) := by
  induction sessions generalizing acc with
  | nil => simp
  | cons sess rest ih =>
      rw [List.foldl_cons, ih, ffSessionStep_length, List.countP_cons]
      by_cases hp : ffContributes q subs sess
      · simp [hp]
        omega
      · simp [hp]

/-- A fold over all-blank subfields returns its accumulator unchanged. -/
theorem parseRespondent_fold_all_blank (kvs : List (String × Value)) :
    ∀ (subs : List String) (acc : List (String × ℚ)),
      (∀ sf ∈ subs, is_blank_value (dGet kvs sf) = true) →
      subs.foldl (fun acc sf =>
        if is_blank_value (dGet kvs sf) then acc
        else match parse_numeric_value (dGet kvs sf) with
          | some p => acc ++ [(sf, p)]
          | none => acc) acc = acc := by
  intro subs
  induction subs with
  | nil => intro acc _; rfl
  | cons sf rest ih =>
      intro acc h
      rw [List.foldl_cons, if_pos (h sf (List.mem_cons_self ..))]
      exact ih acc (fun x hx => h x (List.mem_cons_of_mem _ hx))

/-- C7: in the multi-field numeric algorithm, a respondent whose numeric
subfields are all blank contributes to neither `base_count` nor any
subfield's sample (its parsed map is empty, so it never joins the
respondent list); a respondent who explicitly supplies 0 for one numeric
subfield and leaves another blank is counted in `base_count` and appears
only in the first subfield's sample (checked on the concrete fixture); and
the reported `answered_count` equals `base_count` while `skipped_count`
equals the original total minus `base_count`, overriding the generic
computation. -/
theorem C7_form_fields_base (q : Question) (sessions : Sessions) (a k : ℤ)
    (subs : List String) :
    (calculate_form_fields_numeric_analytics q sessions a k subs).answered_count
      = ((calculate_form_fields_numeric_analytics q sessions a k subs).base_count : ℤ)
    ∧ (calculate_form_fields_numeric_analytics q sessions a k subs).skipped_count
      = a + k
        - ((calculate_form_fields_numeric_analytics q sessions a k subs).base_count : ℤ)
    ∧ (calculate_form_fields_numeric_analytics q sessions a k subs).base_count
      = sessions.countP (ffContributes q subs)
    ∧ (∀ kvs : List (String × Value),
        (∀ sf ∈ subs, is_blank_value (dGet kvs sf) = true) →
        parseRespondent subs kvs = [])
    ∧ calculate_form_fields_numeric_analytics qFF sessFF 1 1 ["a", "b"]
        = .form_fields_numeric "ff" 1 1 1
            [("a", some ⟨1, 0, 0, 0, 0, 0, 0, 0⟩), ("b", none)] := by
  refine ⟨rfl, rfl, ?_, ?_, by decide⟩
  · show (formFieldsRespondentValues q sessions subs).length = _
    unfold formFieldsRespondentValues
    rw [ff_fold_length]
    simp
  · intro kvs h
    exact parseRespondent_fold_all_blank kvs subs [] h

/-- C7 witness: the all-blank respondent of the fixture parses to the empty
map. -/
theorem C7_form_fields_base_witness :
    parseRespondent ["a", "b"] [("a", .str ""), ("b", .null)] = [] :=
  (C7_form_fields_base qFF sessFF 1 1 ["a", "b"]).2.2.2.1
    [("a", .str ""), ("b", .null)] (by decide)

/-- The early-`break` filter loop equals `all`. -/
theorem matchesAllFilters_eq_all (filters : Filters) (answers : Session) :
    matchesAllFilters filters answers = filters.all (matchesFilter answers) := by
  induction filters with
  | nil => rfl
  | cons f fs ih =>
      by_cases h : matchesFilter answers f <;> simp [matchesAllFilters, h, ih]

/-- C9: the filter engine combines multiple filters with AND semantics — a
session is kept iff it matches every filter, so matching one filter but not
another excludes it; within one choice filter a respondent matches if any
of its selected values is among the filter's options (OR semantics, checked
on `["X","Y"]` vs answer `["Y","Z"]`); within a numeric-range filter an
effectively-blank answer never matches, regardless of the bounds. -/
theorem C9_filter_semantics :
    (∀ (sessions : Sessions) (filters : Filters) (sess : String × Session),
        sess ∈ filterSessions sessions filters
          ↔ sess ∈ sessions ∧ ∀ f ∈ filters, matchesFilter sess.2 f = true)
    ∧ matchesFilter [((2 : ℕ), .list [.str "Y", .str "Z"])]
        ((2 : ℕ), .choice ["X", "Y"]) = true
    ∧ (∀ (answers : Session) (qid : ℕ) (question : Question) (mn mx : Option ℚ),
        is_effectively_blank_answer (qGet answers qid) = true →
        matchesFilter answers (qid, .numeric_range question mn mx) = false) := by
  refine ⟨?_, by decide, ?_⟩
  · intro sessions filters sess
    unfold filterSessions
    rw [List.mem_filter, matchesAllFilters_eq_all, List.all_eq_true]
  · intro answers qid question mn mx h
    simp only [matchesFilter]
    rw [if_pos h]

/-- C9 witness: a blank answer never matches an unbounded numeric filter. -/
theorem C9_filter_semantics_witness :
    matchesFilter [((1 : ℕ), Value.str "")]
      ((1 : ℕ), .numeric_range qNum none none) = false :=
  C9_filter_semantics.2.2 [((1 : ℕ), Value.str "")] 1 qNum none none (by decide)

/-- C10 counterexample: for the non-form-fields numeric question and the
non-blank raw answer `{"answer": 5}`, the filter engine derives 5 while the
segmentation engine derives no value — the claim asserts the two always
agree on non-blank answers. -/
theorem C10_counterexample :
    is_effectively_blank_answer envelopeFive = false
    ∧ filterNumericValue qNum envelopeFive = some 5
    ∧ segNumericValue qNum envelopeFive = none := by
  refine ⟨by decide, by decide, by decide⟩

/-- C10 amended: the two numeric derivations coincide for form-fields
questions (both take the multi-field sum), and for every answer that is not
an `{answer, ...}` envelope dict; when a non-form-fields answer is such an
envelope, the filter parses the unwrapped inner value while the
segmentation engine derives no value. -/
theorem C10_numeric_extraction_agreement (question : Question) (answer : Value)
    (h : (question.primary_type == "form"
          && question.secondary_type == "form_fields") = true
      ∨ ∀ kvs : List (String × Value), answer = .dict kvs →
          dHas kvs "answer" = false) :
    filterNumericValue question answer = segNumericValue question answer := by
  unfold filterNumericValue segNumericValue
  by_cases hf : (question.primary_type == "form"
      && question.secondary_type == "form_fields") = true
  · rw [if_pos hf, if_pos hf]
  · rw [if_neg hf, if_neg hf]
    rcases h with h | h
    · exact absurd h hf
    · cases answer with
      | dict kvs =>
          dsimp only
          rw [if_neg (by rw [h kvs rfl]; exact Bool.false_ne_true)]
      | null => rfl
      | str s => rfl
      | num n => rfl
      | list xs => rfl

/-- C10 witness: on a plain scalar answer the two derivations agree. -/
theorem C10_numeric_extraction_agreement_witness :
    filterNumericValue qNum (.num 7) = segNumericValue qNum (.num 7) :=
  C10_numeric_extraction_agreement qNum (.num 7)
    (Or.inr (fun _ h => Value.noConfusion h))

/-- `SegMapLE` is reflexive. -/
theorem segMapLE_refl (m : SegMap) : SegMapLE m m := fun _ _ h => h

/-- `SegMapLE` is transitive. -/
theorem segMapLE_trans {m1 m2 m3 : SegMap} (h12 : SegMapLE m1 m2)
    (h23 : SegMapLE m2 m3) : SegMapLE m1 m3 :=
  fun k sid h => h23 k sid (h12 k sid h)

/-- `segAdd` puts the session into the segment. -/
theorem segLookup_segAdd_self (m : SegMap) (k sid : String) :
    sid ∈ segLookup (segAdd m k sid) k := by
  induction m with
  | nil => simp [segAdd, segLookup]
  | cons kv m ih =>
      by_cases hk : (kv.1 == k) = true
      · rw [segAdd, if_pos hk, segLookup]
        dsimp only
        rw [if_pos hk]
        by_cases hc : kv.2.contains sid
        · rw [if_pos hc]
          exact List.elem_iff.mp hc
        · rw [if_neg hc]
          exact List.mem_append_right _ (List.mem_singleton.mpr rfl)
      · rw [segAdd, if_neg hk, segLookup, if_neg hk]
        exact ih

/-- `segAdd` only grows the map. -/
theorem segAdd_le (m : SegMap) (k' sid' : String) :
    SegMapLE m (segAdd m k' sid') := by
  intro k sid h
  induction m with
  | nil => simp [segLookup] at h
  | cons kv m ih =>
      by_cases hk' : (kv.1 == k') = true
      · rw [segAdd, if_pos hk']
        by_cases hk : (kv.1 == k) = true
        · rw [segLookup, if_pos hk] at h
          rw [segLookup]
          dsimp only
          rw [if_pos hk]
          by_cases hc : kv.2.contains sid'
          · rw [if_pos hc]
            exact h
          · rw [if_neg hc]
            exact List.mem_append_left _ h
        · rw [segLookup, if_neg hk] at h
          rw [segLookup]
          dsimp only
          rw [if_neg hk]
          exact h
      · rw [segAdd, if_neg hk']
        by_cases hk : (kv.1 == k) = true
        · rw [segLookup, if_pos hk] at h ⊢
          exact h
        · rw [segLookup, if_neg hk] at h ⊢
          exact ih h

/-- `segSetdefault` only grows the map. -/
theorem segSetdefault_le (m : SegMap) (k' : String) :
    SegMapLE m (segSetdefault m k') := by
  intro k sid h
  induction m with
  | nil => simp [segLookup] at h
  | cons kv m ih =>
      rw [segSetdefault]
      by_cases hk' : (kv.1 == k') = true
      · rw [if_pos hk']
        exact h
      · rw [if_neg hk']
        by_cases hk : (kv.1 == k) = true
        · rw [segLookup, if_pos hk] at h ⊢
          exact h
        · rw [segLookup, if_neg hk] at h ⊢
          exact ih h

/-- A fold of growing steps grows the map. -/
theorem segMapLE_foldl {α : Type} (g : SegMap → α → SegMap)
    (hg : ∀ m x, SegMapLE m (g m x)) (l : List α) (m : SegMap) :
    SegMapLE m (l.foldl g m) := by
  induction l generalizing m with
  | nil => exact segMapLE_refl m
  | cons x xs ih => exact segMapLE_trans (hg m x) (ih (g m x))

/-- The inner range fold of `assignNumericSession` only grows the map. -/
theorem assignRanges_fold_le (sid : String) (t : ℚ)
    (ranges : List (String × (Option ℚ × Option ℚ))) (acc : SegMap × Bool) :
    SegMapLE acc.1 (ranges.foldl (fun (acc : SegMap × Bool) nr =>
      if boundsSatisfied nr.2.1 nr.2.2 t then (segAdd acc.1 nr.1 sid, true) else acc)
      acc).1 := by
  induction ranges generalizing acc with
  | nil => exact segMapLE_refl acc.1
  | cons nr rest ih =>
      rw [List.foldl_cons]
      by_cases hb : boundsSatisfied nr.2.1 nr.2.2 t
      · rw [if_pos hb]
        exact segMapLE_trans (segAdd_le acc.1 nr.1 sid) (ih (segAdd acc.1 nr.1 sid, true))
      · rw [if_neg hb]
        exact ih acc

/-- `assignNumericSession` only grows the map. -/
theorem assignNumericSession_le (norm_ranges : List (String × (Option ℚ × Option ℚ)))
    (m : SegMap) (sid : String) (total : Option ℚ) :
    SegMapLE m (assignNumericSession norm_ranges m sid total) := by
  cases total with
  | none => exact segAdd_le m _ sid
  | some t =>
      unfold assignNumericSession
      dsimp only
      split
      · exact assignRanges_fold_le sid t norm_ranges (m, false)
      · exact segMapLE_trans (assignRanges_fold_le sid t norm_ranges (m, false))
          (segAdd_le _ _ sid)

/-- `assignChoiceSession` only grows the map. -/
theorem assignChoiceSession_le (mapping : List (String × String)) (m : SegMap)
    (sid : String) (answer_values : List String) :
    SegMapLE m (assignChoiceSession mapping m sid answer_values) := by
  unfold assignChoiceSession
  split
  · exact segAdd_le m _ sid
  · have hfold : ∀ (vals : List String) (acc : SegMap × Bool),
        SegMapLE acc.1 (vals.foldl (fun (acc : SegMap × Bool) raw_value =>
          match mappingLookup mapping raw_value with
          | some segment_name => (segAdd acc.1 segment_name sid, true)
          | none => acc) acc).1 := by
      intro vals
      induction vals with
      | nil => intro acc; exact segMapLE_refl acc.1
      | cons v vs ih =>
          intro acc
          rw [List.foldl_cons]
          cases mappingLookup mapping v with
          | some seg =>
              exact segMapLE_trans (segAdd_le acc.1 seg sid)
                (ih (segAdd acc.1 seg sid, true))
          | none => exact ih acc
    dsimp only
    split
    · exact hfold answer_values (m, false)
    · exact segMapLE_trans (hfold answer_values (m, false)) (segAdd_le _ _ sid)

/-- Processing one dimension only grows the map. -/
theorem processDimension_le (sessions : Sessions) (all_questions : List Question)
    (m : SegMap) (d : Dimension) :
    SegMapLE m (processDimension sessions all_questions m d) := by
  unfold processDimension
  split
  · exact segMapLE_refl m
  · dsimp only
    split
    · exact segMapLE_refl m
    · split
      · split
        · exact segMapLE_refl m
        · split
          · exact segMapLE_refl m
          · exact segMapLE_trans (segMapLE_trans
              (segMapLE_foldl _ (fun m' (nr : String × (Option ℚ × Option ℚ)) =>
                segSetdefault_le m' nr.1) (normalizeRanges d.ranges) m)
              (segSetdefault_le _ ("Unknown")))
              (segMapLE_foldl _ (fun m' (sess : String × Session) =>
                assignNumericSession_le _ m' sess.1 _) sessions _)
      · split
        · split
          · exact segMapLE_refl m
          · exact segMapLE_trans (segMapLE_trans
              (segMapLE_foldl _ (fun m' (s : String) => segSetdefault_le m' s)
                (d.mapping.map (fun kv => kv.2)) m)
              (segSetdefault_le _ ("Unknown")))
              (segMapLE_foldl _ (fun m' (sess : String × Session) =>
                assignChoiceSession_le _ m' sess.1 _) sessions _)
        · exact segMapLE_refl m

/-- The range fold adds the session to a matching named range (and keeps
any membership it already created). -/
theorem assignRanges_fold_mem (sid : String) (t : ℚ) (name : String)
    (mn mx : Option ℚ) :
    ∀ (ranges : List (String × (Option ℚ × Option ℚ))) (acc : SegMap × Bool),
      (((name, (mn, mx)) ∈ ranges ∧ boundsSatisfied mn mx t = true)
        ∨ sid ∈ segLookup acc.1 name) →
      sid ∈ segLookup (ranges.foldl (fun (acc : SegMap × Bool) nr =>
        if boundsSatisfied nr.2.1 nr.2.2 t then (segAdd acc.1 nr.1 sid, true)
        else acc) acc).1 name := by
  intro ranges
  induction ranges with
  | nil =>
      intro acc h
      rcases h with ⟨hmem, _⟩ | h
      · exact absurd hmem (List.not_mem_nil _)
      · exact h
  | cons nr rest ih =>
      intro acc h
      rw [List.foldl_cons]
      rcases h with ⟨hmem, hsat⟩ | h
      · rcases List.mem_cons.mp hmem with heq | hmem'
        · subst heq
          rw [if_pos hsat]
          exact ih _ (Or.inr (segLookup_segAdd_self acc.1 name sid))
        · exact ih _ (Or.inl ⟨hmem', hsat⟩)
      · refine ih _ (Or.inr ?_)
        by_cases hb : boundsSatisfied nr.2.1 nr.2.2 t
        · rw [if_pos hb]
          exact segAdd_le acc.1 nr.1 sid name sid h
        · rw [if_neg hb]
          exact h

/-- `assignNumericSession` adds the session to every named range whose
inclusive bounds the derived value satisfies. -/
theorem assignNumericSession_mem (norm_ranges : List (String × (Option ℚ × Option ℚ)))
    (m : SegMap) (sid : String) (t : ℚ) (name : String) (mn mx : Option ℚ)
    (hmem : (name, (mn, mx)) ∈ norm_ranges)
    (hsat : boundsSatisfied mn mx t = true) :
    sid ∈ segLookup (assignNumericSession norm_ranges m sid (some t)) name := by
  unfold assignNumericSession
  dsimp only
  split
  · exact assignRanges_fold_mem sid t name mn mx norm_ranges (m, false)
      (Or.inl ⟨hmem, hsat⟩)
  · exact segAdd_le _ _ sid name sid
      (assignRanges_fold_mem sid t name mn mx norm_ranges (m, false)
        (Or.inl ⟨hmem, hsat⟩))

/-- The per-session fold of a numeric dimension adds a listed session with a
bounds-satisfying derived value to the matching range. -/
theorem seg_numeric_fold_mem (norm_ranges : List (String × (Option ℚ × Option ℚ)))
    (question : Question) (qid : ℕ) (name : String) (mn mx : Option ℚ)
    (sid : String) (sdata : Session) (t : ℚ)
    (hmem : (name, (mn, mx)) ∈ norm_ranges)
    (hval : segNumericValue question (qGet sdata qid) = some t)
    (hsat : boundsSatisfied mn mx t = true) :
    ∀ (sessions : Sessions) (m : SegMap), (sid, sdata) ∈ sessions →
      sid ∈ segLookup (sessions.foldl (fun acc sess =>
        assignNumericSession norm_ranges acc sess.1
          (segNumericValue question (qGet sess.2 qid))) m) name := by
  intro sessions
  induction sessions with
  | nil => intro m h; exact absurd h (List.not_mem_nil _)
  | cons s rest ih =>
      intro m h
      rw [List.foldl_cons]
      rcases List.mem_cons.mp h with heq | h'
      · subst heq
        refine segMapLE_foldl _
          (fun m' (sess : String × Session) =>
            assignNumericSession_le _ m' sess.1 _) rest _ name sid ?_
        dsimp only
        rw [hval]
        exact assignNumericSession_mem norm_ranges m sid t name mn mx hmem hsat
      · exact ih _ h'

/-- A validly configured numeric dimension adds a listed session with a
bounds-satisfying derived value to the matching range. -/
theorem processDimension_numeric_mem (sessions : Sessions)
    (all_questions : List Question) (m : SegMap) (d : Dimension) (qid : ℕ)
    (question : Question) (name : String) (mn mx : Option ℚ) (sid : String)
    (sdata : Session) (t : ℚ)
    (hqid : d.question_id = some qid) (hq0 : (qid == 0) = false)
    (htype : d.dim_type = some "numeric_range")
    (hfind : List.find? (fun q => q.id == qid) all_questions = some question)
    (hmem : (name, (mn, mx)) ∈ normalizeRanges d.ranges)
    (hsess : (sid, sdata) ∈ sessions)
    (hval : segNumericValue question (qGet sdata qid) = some t)
    (hsat : boundsSatisfied mn mx t = true) :
    sid ∈ segLookup (processDimension sessions all_questions m d) name := by
  have h1 : d.ranges.isEmpty = false := by
    cases hr : d.ranges with
    | nil =>
        rw [hr] at hmem
        exact absurd hmem (List.not_mem_nil _)
    | cons a l => rfl
  have h2 : (normalizeRanges d.ranges).isEmpty = false := by
    cases hn : normalizeRanges d.ranges with
    | nil =>
        rw [hn] at hmem
        exact absurd hmem (List.not_mem_nil _)
    | cons a l => rfl
  unfold processDimension
  rw [hqid, htype]
  rw [if_neg (by simp [qidFalsy, strOptFalsy, hq0])]
  dsimp only [Option.getD]
  rw [hfind]
  dsimp only
  rw [if_pos (by decide : ((some "numeric_range" : Option String)
    == some "numeric_range") = true)]
  rw [if_neg (by rw [h1]; exact Bool.false_ne_true)]
  rw [if_neg (by rw [h2]; exact Bool.false_ne_true)]
  exact seg_numeric_fold_mem (normalizeRanges d.ranges) question qid name mn mx
    sid sdata t hmem hval hsat sessions _ hsess

/-- C8: `segment_sessions` always emits an `"All responses"` segment
containing every input session id; and for a `numeric_range` dimension a
respondent is added to every named range whose inclusive bounds its derived
value satisfies — with the overlapping ranges `{"A": [0,10], "B": [5,15]}`
a respondent whose value is 7 lands in both A's and B's session sets. -/
theorem C8_segmentation :
    (∀ (sessions : Sessions) (config : SegmentationConfig)
        (all_questions : List Question) (sid : String),
        sid ∈ sessions.map (fun sess => sess.1) →
        sid ∈ segLookup (segment_sessions sessions config all_questions)
          ("All responses"))
    ∧ (∀ (sessions : Sessions) (config : SegmentationConfig)
        (all_questions : List Question) (d : Dimension) (qid : ℕ)
        (question : Question) (name : String) (mn mx : Option ℚ)
        (sid : String) (sdata : Session) (t : ℚ),
        d ∈ config.dimensions →
        d.question_id = some qid → (qid == 0) = false →
        d.dim_type = some "numeric_range" →
        List.find? (fun q => q.id == qid) all_questions = some question →
        (name, (mn, mx)) ∈ normalizeRanges d.ranges →
        (sid, sdata) ∈ sessions →
        segNumericValue question (qGet sdata qid) = some t →
        boundsSatisfied mn mx t = true →
        sid ∈ segLookup (segment_sessions sessions config all_questions) name)
    ∧ ("s1" ∈ segLookup (segment_sessions sessSeven segCfgOverlap [qNum]) ("A")
        ∧ "s1" ∈ segLookup (segment_sessions sessSeven segCfgOverlap [qNum]) ("B")) := by
  refine ⟨?_, ?_, by decide, by decide⟩
  · intro sessions config all_questions sid h
    unfold segment_sessions
    refine segMapLE_foldl _ (processDimension_le sessions all_questions)
      config.dimensions _ ("All responses") sid ?_
    simpa [segLookup] using h
  · intro sessions config all_questions d qid question name mn mx sid sdata t
      hd hqid hq0 htype hfind hmem hsess hval hsat
    obtain ⟨l1, l2, hsplit⟩ := List.append_of_mem hd
    unfold segment_sessions
    rw [hsplit, List.foldl_append, List.foldl_cons]
    refine segMapLE_foldl _ (processDimension_le sessions all_questions)
      l2 _ name sid ?_
    exact processDimension_numeric_mem sessions all_questions _ d qid question
      name mn mx sid sdata t hqid hq0 htype hfind hmem hsess hval hsat

/-- C8 witness: the session with value 7 is in `"All responses"` and is
added to the overlapping range B via the general range rule. -/
theorem C8_segmentation_witness :
    "s1" ∈ segLookup (segment_sessions sessSeven segCfgOverlap [qNum])
      ("All responses")
    ∧ "s1" ∈ segLookup (segment_sessions sessSeven segCfgOverlap [qNum]) ("B") :=
  ⟨C8_segmentation.1 sessSeven segCfgOverlap [qNum] "s1" (by decide),
   C8_segmentation.2.1 sessSeven segCfgOverlap [qNum] dimOverlap 1 qNum "B"
    (some 5) (some 15) "s1" [(1, .num 7)] 7
    (List.mem_singleton.mpr rfl) rfl (by decide) rfl rfl (by decide)
    (List.mem_singleton.mpr rfl) rfl (by decide)⟩

end Survey
